import Mathlib

/-
  Shallow embedding of the core of the Set-Theory-Analysis-Playground
  repository: the `PitchClassSet` value type (src/pitch_class_set.py) and
  the `ForteClassification` lookup layer (src/forte_classification.py).

  Python integers are modelled as `Int`; the `%` of Python on a positive
  modulus agrees with Lean's `Int.emod`, and the stored pitch classes
  (always in [0, 12)) are modelled as `Nat`.
-/

/-- Python `x % 12` for an integer `x`: the representative in `[0, 12)`. -/
def pyMod12 (x : Int) : Nat := (x % 12).toNat

/-- `__post_init__` normalization: `sorted(list(set([pc % 12 for pc in input])))`.
For values that all lie in `range(12)`, sorting the deduplicated set is the same
as filtering `range(12)` by membership in the mapped list. -/
def normalizePCs (xs : List Int) : List Nat :=
  (List.range 12).filter (fun v => decide (v ∈ xs.map pyMod12))

/-- The `PitchClassSet` dataclass: its single stored field `pitch_classes`.
After construction the field holds the normalized sorted list; `retrograde()`
overwrites it with a reversed list. -/
structure PitchClassSet where
  pitch_classes : List Nat
deriving DecidableEq, Repr

/-- `PitchClassSet(xs)`: dataclass construction followed by `__post_init__`. -/
def PitchClassSet.ofInts (xs : List Int) : PitchClassSet :=
  ⟨normalizePCs xs⟩

/-- `self.cardinality` / `__len__`: the length of the stored list. -/
def PitchClassSet.cardinality (p : PitchClassSet) : Nat :=
  p.pitch_classes.length

/-- `transposition(n)`: `PitchClassSet([(pc + n) % 12 for pc in self.pitch_classes])`. -/
def PitchClassSet.transposition (p : PitchClassSet) (n : Int) : PitchClassSet :=
  .ofInts (p.pitch_classes.map (fun pc : Nat => (pc : Int) + n))

/-- `inversion(n)`: `PitchClassSet([(n - pc) % 12 for pc in self.pitch_classes])`. -/
def PitchClassSet.inversion (p : PitchClassSet) (n : Int) : PitchClassSet :=
  .ofInts (p.pitch_classes.map (fun pc : Nat => n - (pc : Int)))

/-- `rotation(n)`: `n = n % len(self.pitch_classes)`, then
`PitchClassSet(self.pitch_classes[n:] + self.pitch_classes[:n])`.
The constructor re-sorts the rotated list. -/
def PitchClassSet.rotation (p : PitchClassSet) (n : Int) : PitchClassSet :=
  if p.pitch_classes = [] then .ofInts []
  else
    let m : Nat := (n % (p.pitch_classes.length : Int)).toNat
    .ofInts ((p.pitch_classes.drop m ++ p.pitch_classes.take m).map (fun pc : Nat => (pc : Int)))

/-- `retrograde()`: builds `PitchClassSet(reversed)` and then overwrites the
`pitch_classes` field with the reversed (unsorted) list. -/
def PitchClassSet.retrograde (p : PitchClassSet) : PitchClassSet :=
  if p.pitch_classes = [] then .ofInts []
  else ⟨p.pitch_classes.reverse⟩

/-- `retrograde_inversion(n)`: invert around `n`, then retrograde. -/
def PitchClassSet.retrograde_inversion (p : PitchClassSet) (n : Int) : PitchClassSet :=
  (p.inversion n).retrograde

/-- `get_playback_order()`: returns `self.pitch_classes`. -/
def PitchClassSet.get_playback_order (p : PitchClassSet) : List Nat :=
  p.pitch_classes

/-- Python list `<` on integer lists (lexicographic, shorter prefix smaller). -/
def lexLt : List Nat → List Nat → Bool
  | [], [] => false
  | [], _ :: _ => true
  | _ :: _, [] => false
  | a :: as, b :: bs => a < b || (a == b && lexLt as bs)

/-- Python `min` over a list of lists: keeps the first strictly-smallest element.
The empty case is unreachable in `prime_form` (guarded by the emptiness check). -/
def pyListMin : List (List Nat) → List Nat
  | [] => []
  | c :: cs => cs.foldl (fun acc l => if lexLt l acc then l else acc) c

/-- `prime_form()`: collects `rotation(i).pitch_classes` for every index of the
stored list, the same for the `inversion()` (around 0) of the set, and takes the
Python `min` of the candidates. -/
def PitchClassSet.prime_form (p : PitchClassSet) : List Nat :=
  if p.pitch_classes = [] then []
  else
    let rots := (List.range p.pitch_classes.length).map
      (fun i : Nat => (p.rotation (i : Int)).pitch_classes)
    let inverted := p.inversion 0
    let rotsInv := (List.range inverted.pitch_classes.length).map
      (fun i : Nat => (inverted.rotation (i : Int)).pitch_classes)
    pyListMin (rots ++ rotsInv)

/-- `interval = abs(pcs[i] - pcs[j])`, `interval_class = min(interval, 12 - interval)`. -/
def intervalClass (a b : Nat) : Nat :=
  min ((a : Int) - (b : Int)).natAbs (12 - ((a : Int) - (b : Int)).natAbs)

/-- All index pairs `i < j` of the double loop in `interval_vector`, as the
value pairs `(pcs[i], pcs[j])` in loop order. -/
def allPairs : List Nat → List (Nat × Nat)
  | [] => []
  | x :: xs => xs.map (fun y => (x, y)) ++ allPairs xs

/-- `interval_counts[i] += 1`. -/
def incAt (v : List Nat) (i : Nat) : List Nat :=
  v.set i (v.getD i 0 + 1)

/-- `interval_vector()`: the zero vector for cardinality < 2, else one bucket
increment per unordered pair of stored elements. -/
def PitchClassSet.interval_vector (p : PitchClassSet) : List Nat :=
  if p.pitch_classes.length < 2 then [0, 0, 0, 0, 0, 0]
  else (allPairs p.pitch_classes).foldl
    (fun v ab => incAt v (intervalClass ab.1 ab.2 - 1)) [0, 0, 0, 0, 0, 0]

/-
  ForteClassification (src/forte_classification.py).  `FORTE_TABLE` is a dict
  from cardinality to an insertion-ordered dict from prime-form tuple to Forte
  number string; modelled as association lists in source order.
-/

/-- Cardinality-1 block of `FORTE_TABLE`. -/
def forteTable1 : List (List Nat × String) :=
  [([0], "1-1")]

/-- Cardinality-2 block of `FORTE_TABLE`. -/
def forteTable2 : List (List Nat × String) :=
  [([0, 1], "2-1"), ([0, 2], "2-2"), ([0, 3], "2-3"),
   ([0, 4], "2-4"), ([0, 5], "2-5"), ([0, 6], "2-6")]

/-- Cardinality-3 block of `FORTE_TABLE`. -/
def forteTable3 : List (List Nat × String) :=
  [([0, 1, 2], "3-1"), ([0, 1, 3], "3-2"), ([0, 1, 4], "3-3"),
   ([0, 1, 5], "3-4"), ([0, 1, 6], "3-5"), ([0, 2, 4], "3-6"),
   ([0, 2, 5], "3-7"), ([0, 2, 6], "3-8"), ([0, 2, 7], "3-9"),
   ([0, 3, 6], "3-10"), ([0, 3, 7], "3-11"), ([0, 4, 7], "3-11"), ([0, 4, 8], "3-12")]

/-- Cardinality-4 block of `FORTE_TABLE`. -/
def forteTable4 : List (List Nat × String) :=
  [([0, 1, 2, 3], "4-1"), ([0, 1, 2, 4], "4-2"), ([0, 1, 2, 5], "4-3"),
   ([0, 1, 2, 6], "4-4"), ([0, 1, 2, 7], "4-5"), ([0, 1, 3, 4], "4-6"),
   ([0, 1, 3, 5], "4-7"), ([0, 1, 3, 6], "4-8"), ([0, 1, 3, 7], "4-9"),
   ([0, 1, 4, 5], "4-10"), ([0, 1, 4, 6], "4-11"), ([0, 1, 4, 7], "4-12"),
   ([0, 1, 5, 6], "4-13"), ([0, 1, 5, 7], "4-14"), ([0, 1, 6, 7], "4-15"),
   ([0, 2, 3, 5], "4-16"), ([0, 2, 3, 6], "4-17"), ([0, 2, 3, 7], "4-18"),
   ([0, 2, 4, 6], "4-19"), ([0, 2, 4, 7], "4-20"), ([0, 2, 4, 8], "4-21"),
   ([0, 2, 5, 7], "4-22"), ([0, 2, 5, 8], "4-23"), ([0, 2, 6, 8], "4-24"),
   ([0, 3, 4, 7], "4-25"), ([0, 3, 5, 8], "4-26"), ([0, 3, 6, 9], "4-27"),
   ([0, 4, 5, 8], "4-28"), ([0, 4, 6, 10], "4-29"), ([0, 2, 5, 9], "4-26"),
   ([0, 1, 5, 8], "4-25")]

/-- Cardinality-5 block of `FORTE_TABLE`. -/
def forteTable5 : List (List Nat × String) :=
  [([0, 1, 2, 3, 4], "5-1"), ([0, 1, 2, 3, 5], "5-2"), ([0, 1, 2, 3, 6], "5-3"),
   ([0, 1, 2, 3, 7], "5-4"), ([0, 1, 2, 4, 5], "5-5"), ([0, 1, 2, 4, 6], "5-6"),
   ([0, 1, 2, 4, 7], "5-7"), ([0, 1, 2, 4, 8], "5-8"), ([0, 1, 2, 5, 6], "5-9"),
   ([0, 1, 2, 5, 7], "5-10"), ([0, 1, 2, 5, 8], "5-11"), ([0, 1, 2, 6, 7], "5-12"),
   ([0, 1, 2, 6, 8], "5-13"), ([0, 1, 2, 6, 9], "5-14"), ([0, 1, 3, 4, 5], "5-15"),
   ([0, 1, 3, 4, 6], "5-16"), ([0, 1, 3, 4, 7], "5-17"), ([0, 1, 3, 4, 8], "5-18"),
   ([0, 1, 3, 5, 6], "5-19"), ([0, 1, 3, 5, 7], "5-20"), ([0, 1, 3, 5, 8], "5-21"),
   ([0, 1, 3, 6, 7], "5-22"), ([0, 1, 3, 6, 8], "5-23"), ([0, 1, 3, 6, 9], "5-24"),
   ([0, 1, 4, 5, 6], "5-25"), ([0, 1, 4, 5, 7], "5-26"), ([0, 1, 4, 5, 8], "5-27"),
   ([0, 1, 4, 6, 7], "5-28"), ([0, 1, 4, 6, 8], "5-29"), ([0, 1, 4, 6, 9], "5-30"),
   ([0, 1, 5, 6, 7], "5-31"), ([0, 1, 5, 6, 8], "5-32"), ([0, 1, 5, 6, 9], "5-33"),
   ([0, 2, 3, 4, 6], "5-34"), ([0, 2, 3, 4, 7], "5-35"), ([0, 2, 3, 5, 7], "5-36"),
   ([0, 2, 3, 5, 8], "5-37"), ([0, 2, 4, 5, 8], "5-38")]

/-- Cardinality-6 block of `FORTE_TABLE`. -/
def forteTable6 : List (List Nat × String) :=
  [([0, 1, 2, 3, 4, 5], "6-1"), ([0, 1, 2, 3, 4, 6], "6-2"), ([0, 1, 2, 3, 4, 7], "6-3"),
   ([0, 1, 2, 3, 5, 6], "6-4"), ([0, 1, 2, 3, 5, 7], "6-5"), ([0, 1, 2, 3, 5, 8], "6-6"),
   ([0, 1, 2, 3, 6, 7], "6-7"), ([0, 1, 2, 3, 6, 8], "6-8"), ([0, 1, 2, 3, 6, 9], "6-9"),
   ([0, 1, 2, 4, 5, 6], "6-10"), ([0, 1, 2, 4, 5, 7], "6-11"), ([0, 1, 2, 4, 5, 8], "6-12"),
   ([0, 1, 2, 4, 6, 7], "6-13"), ([0, 1, 2, 4, 6, 8], "6-14"), ([0, 1, 2, 4, 6, 9], "6-15"),
   ([0, 1, 2, 4, 7, 8], "6-16"), ([0, 1, 2, 5, 6, 7], "6-17"), ([0, 1, 2, 5, 6, 8], "6-18"),
   ([0, 1, 2, 5, 6, 9], "6-19"), ([0, 1, 2, 5, 7, 8], "6-20"), ([0, 1, 2, 6, 7, 8], "6-21"),
   ([0, 1, 2, 6, 7, 9], "6-22"), ([0, 1, 2, 6, 8, 10], "6-23"), ([0, 1, 3, 4, 5, 6], "6-24"),
   ([0, 1, 3, 4, 5, 7], "6-25"), ([0, 1, 3, 4, 5, 8], "6-26"), ([0, 1, 3, 4, 6, 7], "6-27"),
   ([0, 1, 3, 4, 6, 8], "6-28"), ([0, 1, 3, 4, 6, 9], "6-29"), ([0, 1, 3, 4, 7, 8], "6-30"),
   ([0, 1, 3, 5, 6, 7], "6-31"), ([0, 1, 3, 5, 6, 8], "6-32"), ([0, 1, 3, 5, 6, 9], "6-33"),
   ([0, 1, 3, 5, 7, 8], "6-34"), ([0, 1, 3, 6, 7, 8], "6-35"), ([0, 1, 3, 6, 7, 9], "6-36"),
   ([0, 1, 3, 6, 8, 9], "6-37"), ([0, 1, 4, 5, 6, 7], "6-38"), ([0, 1, 4, 5, 6, 8], "6-39"),
   ([0, 1, 4, 5, 6, 9], "6-40"), ([0, 1, 4, 5, 7, 8], "6-41"), ([0, 1, 4, 6, 7, 8], "6-42"),
   ([0, 1, 4, 6, 7, 9], "6-43"), ([0, 1, 4, 6, 8, 9], "6-44"), ([0, 1, 5, 6, 7, 8], "6-45"),
   ([0, 1, 5, 6, 7, 9], "6-46"), ([0, 1, 5, 6, 8, 9], "6-47"), ([0, 2, 3, 4, 5, 7], "6-48"),
   ([0, 2, 3, 4, 6, 8], "6-49"), ([0, 2, 3, 5, 6, 8], "6-50"), ([0, 2, 4, 6, 8, 10], "6-35")]

/-- Cardinality-7 block of `FORTE_TABLE`. -/
def forteTable7 : List (List Nat × String) :=
  [([0, 1, 2, 3, 4, 5, 6], "7-1"), ([0, 1, 2, 3, 4, 5, 7], "7-2"), ([0, 1, 2, 3, 4, 5, 8], "7-3"),
   ([0, 1, 2, 3, 4, 6, 7], "7-4"), ([0, 1, 2, 3, 4, 6, 8], "7-5"), ([0, 1, 2, 3, 4, 6, 9], "7-6"),
   ([0, 1, 2, 3, 5, 6, 7], "7-7"), ([0, 1, 2, 3, 5, 6, 8], "7-8"), ([0, 1, 2, 3, 5, 6, 9], "7-9"),
   ([0, 1, 2, 3, 5, 7, 8], "7-10"), ([0, 1, 2, 3, 6, 7, 8], "7-11"), ([0, 1, 2, 3, 6, 7, 9], "7-12"),
   ([0, 1, 2, 3, 6, 8, 9], "7-13"), ([0, 1, 2, 4, 5, 6, 7], "7-14"), ([0, 1, 2, 4, 5, 6, 8], "7-15"),
   ([0, 1, 2, 4, 5, 6, 9], "7-16"), ([0, 1, 2, 4, 5, 7, 8], "7-17"), ([0, 1, 2, 4, 6, 7, 8], "7-18"),
   ([0, 1, 2, 4, 6, 7, 9], "7-19"), ([0, 1, 2, 4, 6, 8, 9], "7-20"), ([0, 1, 2, 5, 6, 7, 8], "7-21"),
   ([0, 1, 2, 5, 6, 7, 9], "7-22"), ([0, 1, 2, 5, 6, 8, 9], "7-23"), ([0, 1, 2, 6, 7, 8, 9], "7-24"),
   ([0, 1, 3, 4, 5, 6, 7], "7-25"), ([0, 1, 3, 4, 5, 6, 8], "7-26"), ([0, 1, 3, 4, 5, 6, 9], "7-27"),
   ([0, 1, 3, 4, 5, 7, 8], "7-28"), ([0, 1, 3, 4, 6, 7, 8], "7-29"), ([0, 1, 3, 4, 6, 7, 9], "7-30"),
   ([0, 1, 3, 5, 6, 7, 8], "7-31"), ([0, 1, 3, 5, 6, 7, 9], "7-32"), ([0, 1, 4, 5, 6, 7, 8], "7-33"),
   ([0, 1, 4, 5, 6, 7, 9], "7-34"), ([0, 1, 4, 5, 6, 8, 9], "7-35"), ([0, 1, 5, 6, 7, 8, 9], "7-36"),
   ([0, 2, 3, 4, 5, 6, 8], "7-37"), ([0, 2, 3, 4, 5, 7, 9], "7-38")]

/-- Cardinality-8 block of `FORTE_TABLE`. -/
def forteTable8 : List (List Nat × String) :=
  [([0, 1, 2, 3, 4, 5, 6, 7], "8-1"), ([0, 1, 2, 3, 4, 5, 6, 8], "8-2"), ([0, 1, 2, 3, 4, 5, 6, 9], "8-3"),
   ([0, 1, 2, 3, 4, 5, 7, 8], "8-4"), ([0, 1, 2, 3, 4, 5, 7, 9], "8-5"), ([0, 1, 2, 3, 4, 6, 7, 8], "8-6"),
   ([0, 1, 2, 3, 4, 6, 7, 9], "8-7"), ([0, 1, 2, 3, 4, 6, 8, 9], "8-8"), ([0, 1, 2, 3, 5, 6, 7, 8], "8-9"),
   ([0, 1, 2, 3, 5, 6, 7, 9], "8-10"), ([0, 1, 2, 3, 5, 6, 8, 9], "8-11"), ([0, 1, 2, 3, 6, 7, 8, 9], "8-12"),
   ([0, 1, 2, 4, 5, 6, 7, 8], "8-13"), ([0, 1, 2, 4, 5, 6, 7, 9], "8-14"), ([0, 1, 2, 4, 5, 6, 8, 9], "8-15"),
   ([0, 1, 2, 4, 6, 7, 8, 9], "8-16"), ([0, 1, 2, 5, 6, 7, 8, 9], "8-17"), ([0, 1, 3, 4, 5, 6, 7, 8], "8-18"),
   ([0, 1, 3, 4, 5, 6, 7, 9], "8-19"), ([0, 1, 3, 4, 5, 6, 8, 9], "8-20"), ([0, 1, 3, 4, 6, 7, 8, 9], "8-21"),
   ([0, 1, 3, 5, 6, 7, 8, 9], "8-22"), ([0, 1, 4, 5, 6, 7, 8, 9], "8-23"), ([0, 2, 3, 4, 5, 6, 7, 8], "8-24"),
   ([0, 2, 3, 4, 5, 6, 7, 9], "8-25"), ([0, 2, 3, 4, 5, 6, 8, 9], "8-26"), ([0, 2, 3, 4, 5, 7, 8, 9], "8-27"),
   ([0, 2, 3, 4, 6, 7, 8, 9], "8-28"), ([0, 2, 4, 5, 6, 7, 8, 9], "8-29")]

/-- Cardinality-9 block of `FORTE_TABLE`. -/
def forteTable9 : List (List Nat × String) :=
  [([0, 1, 2, 3, 4, 5, 6, 7, 8], "9-1"), ([0, 1, 2, 3, 4, 5, 6, 7, 9], "9-2"),
   ([0, 1, 2, 3, 4, 5, 6, 8, 9], "9-3"), ([0, 1, 2, 3, 4, 5, 7, 8, 9], "9-4"),
   ([0, 1, 2, 3, 4, 6, 7, 8, 9], "9-5"), ([0, 1, 2, 3, 5, 6, 7, 8, 9], "9-6"),
   ([0, 1, 2, 4, 5, 6, 7, 8, 9], "9-7"), ([0, 1, 3, 4, 5, 6, 7, 8, 9], "9-8"),
   ([0, 2, 3, 4, 5, 6, 7, 8, 9], "9-9"), ([0, 1, 2, 3, 4, 5, 6, 7, 10], "9-10"),
   ([0, 1, 2, 3, 4, 5, 6, 8, 10], "9-11"), ([0, 1, 2, 3, 4, 5, 7, 8, 10], "9-12")]

/-- Cardinality-10 block of `FORTE_TABLE`. -/
def forteTable10 : List (List Nat × String) :=
  [([0, 1, 2, 3, 4, 5, 6, 7, 8, 9], "10-1"), ([0, 1, 2, 3, 4, 5, 6, 7, 8, 10], "10-2"),
   ([0, 1, 2, 3, 4, 5, 6, 7, 9, 10], "10-3"), ([0, 1, 2, 3, 4, 5, 6, 8, 9, 10], "10-4"),
   ([0, 1, 2, 3, 4, 5, 7, 8, 9, 10], "10-5"), ([0, 1, 2, 3, 4, 6, 7, 8, 9, 10], "10-6")]

/-- Cardinality-11 block of `FORTE_TABLE`. -/
def forteTable11 : List (List Nat × String) :=
  [([0, 1, 2, 3, 4, 5, 6, 7, 8, 9, 10], "11-1")]

/-- Cardinality-12 block of `FORTE_TABLE`. -/
def forteTable12 : List (List Nat × String) :=
  [([0, 1, 2, 3, 4, 5, 6, 7, 8, 9, 10, 11], "12-1")]

/-- The complete `FORTE_TABLE`: cardinality keys 1..12 in source order. -/
def FORTE_TABLE : List (Nat × List (List Nat × String)) :=
  [(1, forteTable1), (2, forteTable2), (3, forteTable3), (4, forteTable4),
   (5, forteTable5), (6, forteTable6), (7, forteTable7), (8, forteTable8),
   (9, forteTable9), (10, forteTable10), (11, forteTable11), (12, forteTable12)]

/-- `cardinality in cls.FORTE_TABLE` plus `cls.FORTE_TABLE[cardinality]`. -/
def tableLookupCard (c : Nat) : Option (List (List Nat × String)) :=
  (FORTE_TABLE.find? (fun e => e.1 == c)).map (fun e => e.2)

/-- The Python constructor applied to a table key: `PitchClassSet(list(prime_form))`. -/
def ofKey (k : List Nat) : PitchClassSet :=
  PitchClassSet.ofInts (k.map (fun pc : Nat => (pc : Int)))

/-- `get_forte_number(pcs)`: dictionary lookup of `tuple(pcs.prime_form())` in
the block of the set's cardinality. -/
def get_forte_number (p : PitchClassSet) : Option String :=
  match tableLookupCard p.cardinality with
  | none => none
  | some tbl => (tbl.find? (fun e => e.1 == p.prime_form)).map (fun e => e.2)

/-- `forte_number.split('-')` on the label, as a split of its character list. -/
def splitDash : List Char → List (List Char)
  | [] => [[]]
  | c :: rest =>
    if c = '-' then [] :: splitDash rest
    else
      match splitDash rest with
      | [] => [[c]]
      | g :: gs => (c :: g) :: gs

/-- The digit loop of Python `int(...)`: fails on an empty or non-digit text. -/
def parseDigits (cs : List Char) : Option Nat :=
  if cs = [] then none
  else
    cs.foldl (fun acc c =>
      match acc with
      | none => none
      | some a =>
        if '0' ≤ c ∧ c ≤ '9' then some (a * 10 + (c.toNat - '0'.toNat)) else none)
      (some 0)

/-- Python `int(...)` on a label fragment: an optional sign then digits; the
`ValueError` of a malformed fragment is modelled as `none`. -/
def parseIntPy (cs : List Char) : Option Int :=
  match cs with
  | '-' :: rest => (parseDigits rest).map (fun n => -(n : Int))
  | '+' :: rest => (parseDigits rest).map (fun n => (n : Int))
  | _ => (parseDigits cs).map (fun n => (n : Int))

/-- `get_set_from_forte_number(label)`: split on `-` (exactly two parts, else
the unpacking raises and `None` is returned), parse both parts as integers,
look up the cardinality block, and linearly search it in insertion order for
the first entry whose value equals the label. -/
def get_set_from_forte_number (s : String) : Option PitchClassSet :=
  match splitDash s.toList with
  | [cstr, nstr] =>
    match parseIntPy cstr, parseIntPy nstr with
    | some c, some _ =>
      match FORTE_TABLE.find? (fun e => (e.1 : Int) == c) with
      | none => none
      | some e => ((e.2.find? (fun en => en.2 == s)).map (fun en => ofKey en.1))
    | _, _ => none
  | _ => none

/-- `get_z_partner(pcs)`: after resolving the set's own Forte number, scan the
same-cardinality block in insertion order for the first entry with a different
label whose reconstructed set has the same interval vector. -/
def get_z_partner (p : PitchClassSet) : Option String :=
  match get_forte_number p with
  | none => none
  | some fn =>
    match tableLookupCard p.cardinality with
    | none => none
    | some tbl =>
      (tbl.find? (fun e =>
        e.2 != fn && (ofKey e.1).interval_vector == p.interval_vector)).map
        (fun e => e.2)

/-! ### Foundations: the Python list order, sorted canonical forms, `% 12` -/

theorem lexLt_irrefl (l : List Nat) : lexLt l l = false := by
  induction l with
  | nil => rfl
  | cons a as ih => simp [lexLt, ih]

theorem lexLt_asymm : ∀ {l₁ l₂ : List Nat}, lexLt l₁ l₂ = true → lexLt l₂ l₁ = false := by
  intro l₁
  induction l₁ with
  | nil =>
    intro l₂ h
    cases l₂ with
    | nil => rfl
    | cons b bs => rfl
  | cons a as ih =>
    intro l₂ h
    cases l₂ with
    | nil => simp [lexLt] at h
    | cons b bs =>
      simp only [lexLt, Bool.or_eq_true, Bool.and_eq_true, decide_eq_true_eq,
        beq_iff_eq] at h ⊢
      rcases h with h | ⟨hab, h⟩
      · simp only [Bool.or_eq_false_iff, Bool.and_eq_false_iff]
        constructor
        · simp only [decide_eq_false_iff_not]; omega
        · left; simp only [beq_eq_false_iff_ne, ne_eq]; omega
      · subst hab
        simp only [Bool.or_eq_false_iff, Bool.and_eq_false_iff]
        constructor
        · simp only [decide_eq_false_iff_not]; omega
        · right; exact ih h

theorem sortedLt_eq_of_mem_iff : ∀ {l₁ l₂ : List Nat}, l₁.Pairwise (· < ·) →
    l₂.Pairwise (· < ·) → (∀ v, v ∈ l₁ ↔ v ∈ l₂) → l₁ = l₂ := by
  intro l₁
  induction l₁ with
  | nil =>
    intro l₂ _ _ hm
    cases l₂ with
    | nil => rfl
    | cons b bs => exact absurd ((hm b).2 (List.mem_cons_self b bs)) (List.not_mem_nil b)
  | cons a as ih =>
    intro l₂ h₁ h₂ hm
    cases l₂ with
    | nil => exact absurd ((hm a).1 (List.mem_cons_self a as)) (List.not_mem_nil a)
    | cons b bs =>
      obtain ⟨ha₁, ha₂⟩ := List.pairwise_cons.1 h₁
      obtain ⟨hb₁, hb₂⟩ := List.pairwise_cons.1 h₂
      have hab : a = b := by
        rcases List.mem_cons.1 ((hm a).1 (List.mem_cons_self a as)) with h | h
        · exact h
        · rcases List.mem_cons.1 ((hm b).2 (List.mem_cons_self b bs)) with h' | h'
          · exact h'.symm
          · have h1 := ha₁ b h'
            have h2 := hb₁ a h
            omega
      subst hab
      have htail : ∀ v, v ∈ as ↔ v ∈ bs := by
        intro v
        constructor
        · intro hv
          have hlt := ha₁ v hv
          rcases List.mem_cons.1 ((hm v).1 (List.mem_cons_of_mem _ hv)) with h | h
          · omega
          · exact h
        · intro hv
          have hlt := hb₁ v hv
          rcases List.mem_cons.1 ((hm v).2 (List.mem_cons_of_mem _ hv)) with h | h
          · omega
          · exact h
      rw [ih ha₂ hb₂ htail]

theorem pyMod12_lt (x : Int) : pyMod12 x < 12 := by
  unfold pyMod12
  have h1 : 0 ≤ x % 12 := Int.emod_nonneg x (by omega)
  have h2 : x % 12 < 12 := Int.emod_lt_of_pos x (by omega)
  omega

theorem cast_pyMod12 (a : Int) : ((pyMod12 a : Nat) : Int) = a % 12 := by
  unfold pyMod12
  rw [Int.toNat_of_nonneg (Int.emod_nonneg a (by omega))]

theorem pyMod12_congr {a b : Int} (h : a % 12 = b % 12) : pyMod12 a = pyMod12 b := by
  unfold pyMod12
  rw [h]

theorem pyMod12_ofNat {v : Nat} (h : v < 12) : pyMod12 (v : Int) = v := by
  unfold pyMod12
  rw [Int.emod_eq_of_lt (by omega) (by omega)]
  simp

theorem pyMod12_sub_left (a b : Int) :
    pyMod12 (a - ((pyMod12 b : Nat) : Int)) = pyMod12 (a - b) := by
  apply pyMod12_congr
  rw [cast_pyMod12, Int.sub_emod a (b % 12), Int.emod_emod_of_dvd b (dvd_refl 12),
    ← Int.sub_emod]

theorem pyMod12_add_left (a b : Int) :
    pyMod12 (((pyMod12 b : Nat) : Int) + a) = pyMod12 (b + a) := by
  apply pyMod12_congr
  rw [cast_pyMod12, Int.add_emod (b % 12) a, Int.emod_emod_of_dvd b (dvd_refl 12),
    ← Int.add_emod]

/-! ### Normalization invariants -/

/-- Well-formedness of a stored list produced by the constructor: strictly
sorted with all values in `[0, 12)`. -/
def wfList (l : List Nat) : Prop := l.Pairwise (· < ·) ∧ ∀ v ∈ l, v < 12

theorem mem_normalizePCs {xs : List Int} {v : Nat} :
    v ∈ normalizePCs xs ↔ v < 12 ∧ v ∈ xs.map pyMod12 := by
  unfold normalizePCs
  simp [List.mem_filter, List.mem_range]

theorem normalizePCs_pairwise (xs : List Int) : (normalizePCs xs).Pairwise (· < ·) :=
  (List.pairwise_lt_range 12).filter _

theorem wf_normalizePCs (xs : List Int) : wfList (normalizePCs xs) :=
  ⟨normalizePCs_pairwise xs, fun _ hv => (mem_normalizePCs.1 hv).1⟩

theorem wf_ofInts (xs : List Int) : wfList (PitchClassSet.ofInts xs).pitch_classes :=
  wf_normalizePCs xs

theorem normalizePCs_of_wf {l : List Nat} (h : wfList l) :
    normalizePCs (l.map (fun pc : Nat => (pc : Int))) = l := by
  apply sortedLt_eq_of_mem_iff (normalizePCs_pairwise _) h.1
  intro v
  rw [mem_normalizePCs]
  constructor
  · rintro ⟨hv, hm⟩
    obtain ⟨u, hu, he⟩ := List.mem_map.1 hm
    obtain ⟨w, hw, hwu⟩ := List.mem_map.1 hu
    subst hwu
    rw [pyMod12_ofNat (h.2 w hw)] at he
    exact he ▸ hw
  · intro hv
    refine ⟨h.2 v hv, ?_⟩
    exact List.mem_map.2 ⟨(v : Int), List.mem_map.2 ⟨v, hv, rfl⟩, pyMod12_ofNat (h.2 v hv)⟩

/-! ### Membership behaviour of the operations -/

theorem ofInts_pc (xs : List Int) :
    (PitchClassSet.ofInts xs).pitch_classes = normalizePCs xs := rfl

theorem mem_transposition {p : PitchClassSet} {n : Int} {v : Nat} :
    v ∈ (p.transposition n).pitch_classes ↔
      ∃ u ∈ p.pitch_classes, pyMod12 ((u : Int) + n) = v := by
  unfold PitchClassSet.transposition
  rw [ofInts_pc, mem_normalizePCs]
  constructor
  · rintro ⟨hv, hm⟩
    obtain ⟨a, ha, hav⟩ := List.mem_map.1 hm
    obtain ⟨u, hu, hua⟩ := List.mem_map.1 ha
    subst hua
    exact ⟨u, hu, hav⟩
  · rintro ⟨u, hu, he⟩
    refine ⟨he ▸ pyMod12_lt _, ?_⟩
    exact List.mem_map.2 ⟨(u : Int) + n, List.mem_map.2 ⟨u, hu, rfl⟩, he⟩

theorem mem_inversion {p : PitchClassSet} {n : Int} {v : Nat} :
    v ∈ (p.inversion n).pitch_classes ↔
      ∃ u ∈ p.pitch_classes, pyMod12 (n - (u : Int)) = v := by
  unfold PitchClassSet.inversion
  rw [ofInts_pc, mem_normalizePCs]
  constructor
  · rintro ⟨hv, hm⟩
    obtain ⟨a, ha, hav⟩ := List.mem_map.1 hm
    obtain ⟨u, hu, hua⟩ := List.mem_map.1 ha
    subst hua
    exact ⟨u, hu, hav⟩
  · rintro ⟨u, hu, he⟩
    refine ⟨he ▸ pyMod12_lt _, ?_⟩
    exact List.mem_map.2 ⟨n - (u : Int), List.mem_map.2 ⟨u, hu, rfl⟩, he⟩

theorem normalizePCs_map_cast_of_mem_iff {l l2 : List Nat} (h : wfList l)
    (hmem : ∀ v, v ∈ l2 ↔ v ∈ l) :
    normalizePCs (l2.map (fun pc : Nat => (pc : Int))) = l := by
  apply sortedLt_eq_of_mem_iff (normalizePCs_pairwise _) h.1
  intro v
  rw [mem_normalizePCs]
  constructor
  · rintro ⟨hv, hm⟩
    obtain ⟨a, ha, hav⟩ := List.mem_map.1 hm
    obtain ⟨w, hw, hwa⟩ := List.mem_map.1 ha
    subst hwa
    have hw12 : w < 12 := h.2 w ((hmem w).1 hw)
    rw [pyMod12_ofNat hw12] at hav
    exact hav ▸ (hmem w).1 hw
  · intro hv
    refine ⟨h.2 v hv, ?_⟩
    exact List.mem_map.2 ⟨(v : Int), List.mem_map.2 ⟨v, (hmem v).2 hv, rfl⟩,
      pyMod12_ofNat (h.2 v hv)⟩

theorem eta_pcs (p : PitchClassSet) : PitchClassSet.mk p.pitch_classes = p := rfl

/-- On a well-formed (constructor-produced) set every rotation is re-sorted
back to the set itself. -/
theorem rotation_eq_self (p : PitchClassSet) (h : wfList p.pitch_classes) (n : Int) :
    p.rotation n = p := by
  unfold PitchClassSet.rotation
  by_cases he : p.pitch_classes = []
  · rw [if_pos he]
    rw [← eta_pcs p, he]
    rfl
  · rw [if_neg he]
    rw [← eta_pcs p]
    show PitchClassSet.mk (normalizePCs _) = _
    congr 1
    apply normalizePCs_map_cast_of_mem_iff h
    intro v
    rw [List.mem_append]
    constructor
    · rintro (hv | hv)
      · exact List.mem_of_mem_drop hv
      · exact List.mem_of_mem_take hv
    · intro hv
      have := List.take_append_drop ((n % (p.pitch_classes.length : Int)).toNat)
        p.pitch_classes
      rw [← this, List.mem_append] at hv
      tauto

theorem inversion_pc_ne_nil {p : PitchClassSet} (h : p.pitch_classes ≠ []) (n : Int) :
    (p.inversion n).pitch_classes ≠ [] := by
  obtain ⟨u, hu⟩ := List.exists_mem_of_ne_nil p.pitch_classes h
  intro hc
  have hm : pyMod12 (n - (u : Int)) ∈ (p.inversion n).pitch_classes :=
    mem_inversion.2 ⟨u, hu, rfl⟩
  rw [hc] at hm
  exact List.not_mem_nil _ hm

theorem foldl_min_replicate (m : Nat) (acc x : List Nat) :
    (List.replicate m x).foldl (fun acc l => if lexLt l acc then l else acc) acc =
      if m = 0 then acc else if lexLt x acc then x else acc := by
  induction m generalizing acc with
  | zero => simp
  | succ m ih =>
    rw [List.replicate_succ, List.foldl_cons, ih]
    by_cases hl : lexLt x acc = true
    · simp only [hl, if_true]
      by_cases hm : m = 0 <;> simp [hm, lexLt_irrefl, hl]
    · simp only [Bool.not_eq_true] at hl
      simp only [hl, Bool.false_eq_true, if_false]
      by_cases hm : m = 0 <;> simp [hm, hl]

/-- The net effect of `prime_form` on a constructor-produced set: every
rotation re-sorts to the set itself, so the minimum is taken over just the
sorted set and its sorted inversion around 0. -/
theorem prime_form_eq (p : PitchClassSet) (h : wfList p.pitch_classes)
    (hne : p.pitch_classes ≠ []) :
    p.prime_form =
      if lexLt (p.inversion 0).pitch_classes p.pitch_classes
      then (p.inversion 0).pitch_classes else p.pitch_classes := by
  have hwfInv : wfList (p.inversion 0).pitch_classes := wf_normalizePCs _
  have hneInv : (p.inversion 0).pitch_classes ≠ [] := inversion_pc_ne_nil hne 0
  unfold PitchClassSet.prime_form
  rw [if_neg hne]
  simp only [rotation_eq_self p h, rotation_eq_self (p.inversion 0) hwfInv,
    List.map_const', List.length_range]
  obtain ⟨m, hm⟩ : ∃ m, p.pitch_classes.length = m + 1 := by
    cases hl : p.pitch_classes.length with
    | zero => exact absurd (List.eq_nil_of_length_eq_zero hl) hne
    | succ m => exact ⟨m, rfl⟩
  rw [hm, List.replicate_succ, List.cons_append]
  show List.foldl _ _ _ = _
  rw [List.foldl_append, foldl_min_replicate, foldl_min_replicate]
  have hk : (p.inversion 0).pitch_classes.length ≠ 0 := by
    intro hc
    exact hneInv (List.eq_nil_of_length_eq_zero hc)
  rw [if_neg hk]
  by_cases hm0 : m = 0 <;> simp [hm0, lexLt_irrefl]

theorem inversion_inversion_zero (p : PitchClassSet) (h : wfList p.pitch_classes) :
    (p.inversion 0).inversion 0 = p := by
  rw [← eta_pcs ((p.inversion 0).inversion 0), ← eta_pcs p]
  congr 1
  have hwf : wfList ((p.inversion 0).inversion 0).pitch_classes := wf_normalizePCs _
  apply sortedLt_eq_of_mem_iff hwf.1 h.1
  intro v
  rw [mem_inversion]
  constructor
  · rintro ⟨u, hu, he⟩
    obtain ⟨w, hw, hwe⟩ := mem_inversion.1 hu
    subst hwe
    subst he
    rw [pyMod12_sub_left, sub_sub_cancel, pyMod12_ofNat (h.2 w hw)]
    exact hw
  · intro hv
    refine ⟨pyMod12 (0 - (v : Int)), mem_inversion.2 ⟨v, hv, rfl⟩, ?_⟩
    rw [pyMod12_sub_left, sub_sub_cancel, pyMod12_ofNat (h.2 v hv)]

theorem prime_form_cases (p : PitchClassSet) (h : wfList p.pitch_classes)
    (hne : p.pitch_classes ≠ []) :
    p.prime_form = p.pitch_classes ∨ p.prime_form = (p.inversion 0).pitch_classes := by
  rw [prime_form_eq p h hne]
  by_cases hl : lexLt (p.inversion 0).pitch_classes p.pitch_classes = true
  · right; rw [if_pos hl]
  · left
    rw [if_neg]
    simpa using hl

theorem prime_form_wf (p : PitchClassSet) (h : wfList p.pitch_classes) :
    wfList p.prime_form := by
  by_cases hne : p.pitch_classes = []
  · unfold PitchClassSet.prime_form
    rw [if_pos hne]
    exact ⟨List.Pairwise.nil, fun v hv => absurd hv (List.not_mem_nil v)⟩
  · rcases prime_form_cases p h hne with hc | hc
    · rw [hc]; exact h
    · rw [hc]; exact wf_normalizePCs _

/-- `prime_form` is idempotent: re-reducing the constructor image of a prime
form returns that prime form. -/
theorem prime_form_idem (p : PitchClassSet) (h : wfList p.pitch_classes) :
    (PitchClassSet.mk p.prime_form).prime_form = p.prime_form := by
  by_cases hne : p.pitch_classes = []
  · unfold PitchClassSet.prime_form
    rw [if_pos hne]
    rfl
  · have hwfInv : wfList (p.inversion 0).pitch_classes := wf_normalizePCs _
    have hneInv : (p.inversion 0).pitch_classes ≠ [] := inversion_pc_ne_nil hne 0
    rw [prime_form_eq p h hne]
    by_cases hl : lexLt (p.inversion 0).pitch_classes p.pitch_classes = true
    · rw [if_pos hl, eta_pcs (p.inversion 0),
        prime_form_eq (p.inversion 0) hwfInv hneInv, inversion_inversion_zero p h,
        if_neg]
      rw [lexLt_asymm hl]
      simp
    · rw [if_neg hl, eta_pcs p, prime_form_eq p h hne, if_neg hl]

/-! ### Group structure of transposition and inversion on constructor images -/

theorem transposition_transposition (p : PitchClassSet) (a b : Int) :
    (p.transposition a).transposition b = p.transposition (a + b) := by
  rw [← eta_pcs ((p.transposition a).transposition b), ← eta_pcs (p.transposition (a + b))]
  congr 1
  have hwf : wfList ((p.transposition a).transposition b).pitch_classes := wf_normalizePCs _
  have hwf2 : wfList (p.transposition (a + b)).pitch_classes := wf_normalizePCs _
  apply sortedLt_eq_of_mem_iff hwf.1 hwf2.1
  intro v
  rw [mem_transposition, mem_transposition]
  constructor
  · rintro ⟨u, hu, he⟩
    obtain ⟨w, hw, hwe⟩ := mem_transposition.1 hu
    refine ⟨w, hw, ?_⟩
    subst hwe
    subst he
    rw [pyMod12_add_left, add_assoc]
  · rintro ⟨w, hw, he⟩
    refine ⟨pyMod12 ((w : Int) + a), mem_transposition.2 ⟨w, hw, rfl⟩, ?_⟩
    rw [pyMod12_add_left, add_assoc]
    exact he

theorem transposition_inversion (p : PitchClassSet) (a b : Int) :
    (p.inversion a).transposition b = p.inversion (a + b) := by
  rw [← eta_pcs ((p.inversion a).transposition b), ← eta_pcs (p.inversion (a + b))]
  congr 1
  have hwf : wfList ((p.inversion a).transposition b).pitch_classes := wf_normalizePCs _
  have hwf2 : wfList (p.inversion (a + b)).pitch_classes := wf_normalizePCs _
  apply sortedLt_eq_of_mem_iff hwf.1 hwf2.1
  intro v
  rw [mem_transposition, mem_inversion]
  constructor
  · rintro ⟨u, hu, he⟩
    obtain ⟨w, hw, hwe⟩ := mem_inversion.1 hu
    refine ⟨w, hw, ?_⟩
    subst hwe
    subst he
    rw [pyMod12_add_left]
    congr 1
    ring
  · rintro ⟨w, hw, he⟩
    refine ⟨pyMod12 (a - (w : Int)), mem_inversion.2 ⟨w, hw, rfl⟩, ?_⟩
    rw [pyMod12_add_left]
    rw [show a - (w : Int) + b = a + b - (w : Int) from by ring]
    exact he

theorem inversion_transposition (p : PitchClassSet) (a b : Int) :
    (p.transposition a).inversion b = p.inversion (b - a) := by
  rw [← eta_pcs ((p.transposition a).inversion b), ← eta_pcs (p.inversion (b - a))]
  congr 1
  have hwf : wfList ((p.transposition a).inversion b).pitch_classes := wf_normalizePCs _
  have hwf2 : wfList (p.inversion (b - a)).pitch_classes := wf_normalizePCs _
  apply sortedLt_eq_of_mem_iff hwf.1 hwf2.1
  intro v
  rw [mem_inversion, mem_inversion]
  constructor
  · rintro ⟨u, hu, he⟩
    obtain ⟨w, hw, hwe⟩ := mem_transposition.1 hu
    refine ⟨w, hw, ?_⟩
    subst hwe
    subst he
    rw [pyMod12_sub_left]
    congr 1
    ring
  · rintro ⟨w, hw, he⟩
    refine ⟨pyMod12 ((w : Int) + a), mem_transposition.2 ⟨w, hw, rfl⟩, ?_⟩
    rw [pyMod12_sub_left]
    rw [show b - ((w : Int) + a) = b - a - (w : Int) from by ring]
    exact he

theorem inversion_inversion (p : PitchClassSet) (a b : Int) :
    (p.inversion a).inversion b = p.transposition (b - a) := by
  rw [← eta_pcs ((p.inversion a).inversion b), ← eta_pcs (p.transposition (b - a))]
  congr 1
  have hwf : wfList ((p.inversion a).inversion b).pitch_classes := wf_normalizePCs _
  have hwf2 : wfList (p.transposition (b - a)).pitch_classes := wf_normalizePCs _
  apply sortedLt_eq_of_mem_iff hwf.1 hwf2.1
  intro v
  rw [mem_inversion, mem_transposition]
  constructor
  · rintro ⟨u, hu, he⟩
    obtain ⟨w, hw, hwe⟩ := mem_inversion.1 hu
    refine ⟨w, hw, ?_⟩
    subst hwe
    subst he
    rw [pyMod12_sub_left]
    congr 1
    ring
  · rintro ⟨w, hw, he⟩
    refine ⟨pyMod12 (a - (w : Int)), mem_inversion.2 ⟨w, hw, rfl⟩, ?_⟩
    rw [pyMod12_sub_left]
    rw [show b - (a - (w : Int)) = (w : Int) + (b - a) from by ring]
    exact he

theorem transposition_emod (p : PitchClassSet) (n : Int) :
    p.transposition n = p.transposition (n % 12) := by
  rw [← eta_pcs (p.transposition n), ← eta_pcs (p.transposition (n % 12))]
  congr 1
  have hwf : wfList (p.transposition n).pitch_classes := wf_normalizePCs _
  have hwf2 : wfList (p.transposition (n % 12)).pitch_classes := wf_normalizePCs _
  apply sortedLt_eq_of_mem_iff hwf.1 hwf2.1
  intro v
  rw [mem_transposition, mem_transposition]
  constructor
  · rintro ⟨u, hu, he⟩
    refine ⟨u, hu, ?_⟩
    rw [← he]
    apply pyMod12_congr
    rw [Int.add_emod (u : Int) (n % 12), Int.emod_emod_of_dvd n (dvd_refl 12),
      ← Int.add_emod]
  · rintro ⟨u, hu, he⟩
    refine ⟨u, hu, ?_⟩
    rw [← he]
    apply pyMod12_congr
    rw [Int.add_emod (u : Int) (n % 12), Int.emod_emod_of_dvd n (dvd_refl 12),
      ← Int.add_emod]

theorem inversion_emod (p : PitchClassSet) (n : Int) :
    p.inversion n = p.inversion (n % 12) := by
  rw [← eta_pcs (p.inversion n), ← eta_pcs (p.inversion (n % 12))]
  congr 1
  have hwf : wfList (p.inversion n).pitch_classes := wf_normalizePCs _
  have hwf2 : wfList (p.inversion (n % 12)).pitch_classes := wf_normalizePCs _
  apply sortedLt_eq_of_mem_iff hwf.1 hwf2.1
  intro v
  rw [mem_inversion, mem_inversion]
  constructor
  · rintro ⟨u, hu, he⟩
    refine ⟨u, hu, ?_⟩
    rw [← he]
    apply pyMod12_congr
    rw [Int.sub_emod (n % 12) (u : Int), Int.emod_emod_of_dvd n (dvd_refl 12),
      ← Int.sub_emod]
  · rintro ⟨u, hu, he⟩
    refine ⟨u, hu, ?_⟩
    rw [← he]
    apply pyMod12_congr
    rw [Int.sub_emod (n % 12) (u : Int), Int.emod_emod_of_dvd n (dvd_refl 12),
      ← Int.sub_emod]

theorem emod_twelve_as_nat (n : Int) :
    n % 12 = (((n % 12).toNat : Nat) : Int) := by
  rw [Int.toNat_of_nonneg (Int.emod_nonneg n (by omega))]

theorem emod_twelve_toNat_lt (n : Int) : (n % 12).toNat < 12 := by
  have h1 : 0 ≤ n % 12 := Int.emod_nonneg n (by omega)
  have h2 : n % 12 < 12 := Int.emod_lt_of_pos n (by omega)
  omega

/-! ### Interval-vector counting machinery -/

/-- Number of loop pairs whose interval class is `c`. -/
def icCountC (ps : List (Nat × Nat)) (c : Nat) : Nat :=
  ps.countP (fun ab => intervalClass ab.1 ab.2 == c)

theorem intervalClass_bounds {a b : Nat} (hab : a < b) (hb : b < 12) :
    1 ≤ intervalClass a b ∧ intervalClass a b ≤ 6 := by
  unfold intervalClass
  have h1 : ((a : Int) - (b : Int)).natAbs = b - a := by omega
  rw [h1]
  omega

theorem intervalClass_comm (a b : Nat) : intervalClass a b = intervalClass b a := by
  unfold intervalClass
  have h1 : ((a : Int) - (b : Int)).natAbs = ((b : Int) - (a : Int)).natAbs := by omega
  rw [h1]

theorem mem_allPairs : ∀ {l : List Nat}, l.Pairwise (· < ·) → ∀ {ab : Nat × Nat},
    (ab ∈ allPairs l ↔ ab.1 ∈ l ∧ ab.2 ∈ l ∧ ab.1 < ab.2) := by
  intro l
  induction l with
  | nil => intro _ ab; simp [allPairs]
  | cons x xs ih =>
    intro h ab
    obtain ⟨hx, hxs⟩ := List.pairwise_cons.1 h
    rw [allPairs, List.mem_append, List.mem_map, ih hxs]
    constructor
    · rintro (⟨y, hy, hyab⟩ | ⟨h1, h2, h3⟩)
      · subst hyab
        exact ⟨List.mem_cons_self x xs, List.mem_cons_of_mem x hy, hx y hy⟩
      · exact ⟨List.mem_cons_of_mem x h1, List.mem_cons_of_mem x h2, h3⟩
    · rintro ⟨h1, h2, h3⟩
      rcases List.mem_cons.1 h1 with e1 | m1
      · rcases List.mem_cons.1 h2 with e2 | m2
        · exfalso
          rw [e1, e2] at h3
          omega
        · left
          refine ⟨ab.2, m2, ?_⟩
          rw [← e1]
      · rcases List.mem_cons.1 h2 with e2 | m2
        · exfalso
          have := hx ab.1 m1
          rw [e2] at h3
          omega
        · exact Or.inr ⟨m1, m2, h3⟩

theorem allPairs_nodup : ∀ {l : List Nat}, l.Pairwise (· < ·) → (allPairs l).Nodup := by
  intro l
  induction l with
  | nil => intro _; simp [allPairs]
  | cons x xs ih =>
    intro h
    obtain ⟨hx, hxs⟩ := List.pairwise_cons.1 h
    have hxnot : x ∉ xs := fun hc => by have := hx x hc; omega
    rw [allPairs]
    apply List.Nodup.append
    · have hnd : xs.Nodup := List.Pairwise.imp (fun hlt => Nat.ne_of_lt hlt) hxs
      exact hnd.map (fun a b e => by simpa using e)
    · exact ih hxs
    · intro ab hab1 hab2
      obtain ⟨y, hy, hyab⟩ := List.mem_map.1 hab1
      have := (mem_allPairs hxs).1 hab2
      rw [← hyab] at this
      exact hxnot this.1

theorem two_mul_length_allPairs : ∀ l : List Nat,
    2 * (allPairs l).length = l.length * (l.length - 1) := by
  intro l
  induction l with
  | nil => rfl
  | cons x xs ih =>
    simp only [allPairs, List.length_append, List.length_map, List.length_cons]
    cases hn : xs.length with
    | zero =>
      rw [hn] at ih
      omega
    | succ k =>
      rw [hn] at ih
      calc 2 * (k + 1 + (allPairs xs).length)
          = 2 * (k + 1) + 2 * (allPairs xs).length := by ring
        _ = 2 * (k + 1) + (k + 1) * (k + 1 - 1) := by rw [ih]
        _ = (k + 1 + 1) * (k + 1 + 1 - 1) := by simp; ring

theorem icCountC_cons (ab : Nat × Nat) (ps : List (Nat × Nat)) (c : Nat) :
    icCountC (ab :: ps) c =
      icCountC ps c + (if intervalClass ab.1 ab.2 = c then 1 else 0) := by
  unfold icCountC
  rw [List.countP_cons]
  congr 1
  by_cases h : intervalClass ab.1 ab.2 = c <;> simp [h]

theorem foldl_incAt_six : ∀ (ps : List (Nat × Nat)),
    (∀ ab ∈ ps, 1 ≤ intervalClass ab.1 ab.2 ∧ intervalClass ab.1 ab.2 ≤ 6) →
    ∀ a b c d e f : Nat,
    ps.foldl (fun v ab => incAt v (intervalClass ab.1 ab.2 - 1)) [a, b, c, d, e, f] =
      [a + icCountC ps 1, b + icCountC ps 2, c + icCountC ps 3,
       d + icCountC ps 4, e + icCountC ps 5, f + icCountC ps 6] := by
  intro ps
  induction ps with
  | nil =>
    intro _ a b c d e f
    simp [icCountC]
  | cons ab ps ih =>
    intro hps a b c d e f
    obtain ⟨hab1, hab2⟩ := hps ab (List.mem_cons_self ab ps)
    have hps2 := fun x hx => hps x (List.mem_cons_of_mem ab hx)
    rw [List.foldl_cons, icCountC_cons, icCountC_cons, icCountC_cons, icCountC_cons,
      icCountC_cons, icCountC_cons]
    have hcase : intervalClass ab.1 ab.2 = 1 ∨ intervalClass ab.1 ab.2 = 2 ∨
        intervalClass ab.1 ab.2 = 3 ∨ intervalClass ab.1 ab.2 = 4 ∨
        intervalClass ab.1 ab.2 = 5 ∨ intervalClass ab.1 ab.2 = 6 := by omega
    rcases hcase with h | h | h | h | h | h
    · rw [h, show incAt [a, b, c, d, e, f] (1 - 1) = [a + 1, b, c, d, e, f] from rfl,
        ih hps2]
      simp only [List.cons.injEq]
      norm_num
      omega
    · rw [h, show incAt [a, b, c, d, e, f] (2 - 1) = [a, b + 1, c, d, e, f] from rfl,
        ih hps2]
      simp only [List.cons.injEq]
      norm_num
      omega
    · rw [h, show incAt [a, b, c, d, e, f] (3 - 1) = [a, b, c + 1, d, e, f] from rfl,
        ih hps2]
      simp only [List.cons.injEq]
      norm_num
      omega
    · rw [h, show incAt [a, b, c, d, e, f] (4 - 1) = [a, b, c, d + 1, e, f] from rfl,
        ih hps2]
      simp only [List.cons.injEq]
      norm_num
      omega
    · rw [h, show incAt [a, b, c, d, e, f] (5 - 1) = [a, b, c, d, e + 1, f] from rfl,
        ih hps2]
      simp only [List.cons.injEq]
      norm_num
      omega
    · rw [h, show incAt [a, b, c, d, e, f] (6 - 1) = [a, b, c, d, e, f + 1] from rfl,
        ih hps2]
      simp only [List.cons.injEq]
      norm_num
      omega

theorem interval_vector_eq (p : PitchClassSet) (h : wfList p.pitch_classes) :
    p.interval_vector =
      [icCountC (allPairs p.pitch_classes) 1, icCountC (allPairs p.pitch_classes) 2,
       icCountC (allPairs p.pitch_classes) 3, icCountC (allPairs p.pitch_classes) 4,
       icCountC (allPairs p.pitch_classes) 5, icCountC (allPairs p.pitch_classes) 6] := by
  have hps : ∀ ab ∈ allPairs p.pitch_classes,
      1 ≤ intervalClass ab.1 ab.2 ∧ intervalClass ab.1 ab.2 ≤ 6 := by
    intro ab hab
    obtain ⟨h1, h2, h3⟩ := (mem_allPairs h.1).1 hab
    exact intervalClass_bounds h3 (h.2 _ h2)
  unfold PitchClassSet.interval_vector
  by_cases hlen : p.pitch_classes.length < 2
  · rw [if_pos hlen]
    cases hl : p.pitch_classes with
    | nil => simp [allPairs, icCountC]
    | cons x xs =>
      cases hxs : xs with
      | nil => simp [allPairs, icCountC]
      | cons y ys =>
        rw [hl, hxs] at hlen
        simp at hlen
        omega
  · rw [if_neg hlen, foldl_incAt_six (allPairs p.pitch_classes) hps 0 0 0 0 0 0]
    simp

/-- Unordered-pair count, over the finite set of members. -/
def ucF (s : Finset Nat) (c : Nat) : Nat :=
  ((s ×ˢ s).filter (fun ab => ab.1 < ab.2 ∧ intervalClass ab.1 ab.2 = c)).card

/-- Ordered-distinct-pair count, over the finite set of members. -/
def ocF (s : Finset Nat) (c : Nat) : Nat :=
  ((s ×ˢ s).filter (fun ab => ab.1 ≠ ab.2 ∧ intervalClass ab.1 ab.2 = c)).card

theorem allPairs_toFinset (l : List Nat) (h : l.Pairwise (· < ·)) :
    (allPairs l).toFinset = (l.toFinset ×ˢ l.toFinset).filter (fun ab => ab.1 < ab.2) := by
  ext ab
  rw [List.mem_toFinset, mem_allPairs h, Finset.mem_filter, Finset.mem_product,
    List.mem_toFinset, List.mem_toFinset]
  tauto

theorem icCountC_eq_ucF (l : List Nat) (h : l.Pairwise (· < ·)) (c : Nat) :
    icCountC (allPairs l) c = ucF l.toFinset c := by
  unfold icCountC ucF
  rw [List.countP_eq_length_filter]
  have hnd : ((allPairs l).filter (fun ab => intervalClass ab.1 ab.2 == c)).Nodup :=
    (allPairs_nodup h).filter _
  rw [← List.toFinset_card_of_nodup hnd, List.toFinset_filter, allPairs_toFinset l h,
    Finset.filter_filter]
  congr 1
  apply Finset.filter_congr
  intro ab _
  constructor
  · rintro ⟨h1, h2⟩
    exact ⟨h1, by simpa using h2⟩
  · rintro ⟨h1, h2⟩
    exact ⟨h1, by simpa using h2⟩

theorem ocF_eq_two_mul_ucF (s : Finset Nat) (c : Nat) : ocF s c = 2 * ucF s c := by
  unfold ocF ucF
  have hsplit : ((s ×ˢ s).filter (fun ab => ab.1 ≠ ab.2 ∧ intervalClass ab.1 ab.2 = c))
      = ((s ×ˢ s).filter (fun ab => ab.1 < ab.2 ∧ intervalClass ab.1 ab.2 = c)) ∪
        ((s ×ˢ s).filter (fun ab => ab.2 < ab.1 ∧ intervalClass ab.1 ab.2 = c)) := by
    rw [← Finset.filter_or]
    apply Finset.filter_congr
    intro ab _
    constructor
    · rintro ⟨hne, hP⟩
      rcases Nat.lt_or_gt_of_ne hne with hlt | hgt
      · exact Or.inl ⟨hlt, hP⟩
      · exact Or.inr ⟨hgt, hP⟩
    · rintro (⟨hlt, hP⟩ | ⟨hgt, hP⟩)
      · exact ⟨Nat.ne_of_lt hlt, hP⟩
      · exact ⟨(Nat.ne_of_lt hgt).symm, hP⟩
  have hdisj : Disjoint
      ((s ×ˢ s).filter (fun ab => ab.1 < ab.2 ∧ intervalClass ab.1 ab.2 = c))
      ((s ×ˢ s).filter (fun ab => ab.2 < ab.1 ∧ intervalClass ab.1 ab.2 = c)) := by
    rw [Finset.disjoint_left]
    intro ab h1 h2
    rw [Finset.mem_filter] at h1 h2
    omega
  rw [hsplit, Finset.card_union_of_disjoint hdisj]
  have himg : (s ×ˢ s).filter (fun ab => ab.2 < ab.1 ∧ intervalClass ab.1 ab.2 = c)
      = Finset.image Prod.swap
        ((s ×ˢ s).filter (fun ab => ab.1 < ab.2 ∧ intervalClass ab.1 ab.2 = c)) := by
    ext ab
    rw [Finset.mem_image, Finset.mem_filter, Finset.mem_product]
    constructor
    · rintro ⟨⟨hm1, hm2⟩, hlt, hc⟩
      refine ⟨(ab.2, ab.1), ?_, ?_⟩
      · rw [Finset.mem_filter, Finset.mem_product]
        exact ⟨⟨hm2, hm1⟩, hlt, by rw [intervalClass_comm]; exact hc⟩
      · rfl
    · rintro ⟨⟨x, y⟩, hxy, he⟩
      rw [Finset.mem_filter, Finset.mem_product] at hxy
      obtain ⟨⟨hx, hy⟩, hlt, hc⟩ := hxy
      rw [← he]
      exact ⟨⟨hy, hx⟩, hlt, by rw [intervalClass_comm]; exact hc⟩
  rw [himg, Finset.card_image_of_injective _ Prod.swap_injective]
  omega

theorem ocF_image (s : Finset Nat) (σ : Nat → Nat) (c : Nat)
    (hinj : ∀ a ∈ s, ∀ b ∈ s, σ a = σ b → a = b)
    (hic : ∀ a ∈ s, ∀ b ∈ s, intervalClass (σ a) (σ b) = intervalClass a b) :
    ocF (s.image σ) c = ocF s c := by
  unfold ocF
  have himg : ((s.image σ ×ˢ s.image σ).filter
        (fun ab => ab.1 ≠ ab.2 ∧ intervalClass ab.1 ab.2 = c))
      = Finset.image (Prod.map σ σ)
        ((s ×ˢ s).filter (fun ab => ab.1 ≠ ab.2 ∧ intervalClass ab.1 ab.2 = c)) := by
    ext ab
    rw [Finset.mem_filter, Finset.mem_product, Finset.mem_image, Finset.mem_image,
      Finset.mem_image]
    constructor
    · rintro ⟨⟨⟨x, hx, hxe⟩, ⟨y, hy, hye⟩⟩, hne, hc⟩
      refine ⟨(x, y), ?_, ?_⟩
      · rw [Finset.mem_filter, Finset.mem_product]
        refine ⟨⟨hx, hy⟩, ?_, ?_⟩
        · intro he
          exact hne (by rw [← hxe, ← hye]; exact congrArg σ he)
        · show intervalClass x y = c
          rw [← hic x hx y hy, hxe, hye]
          exact hc
      · show (σ x, σ y) = ab
        rw [Prod.ext_iff]
        exact ⟨hxe, hye⟩
    · rintro ⟨⟨x, y⟩, hmem, he⟩
      rw [Finset.mem_filter, Finset.mem_product] at hmem
      obtain ⟨⟨hx, hy⟩, hne, hc⟩ := hmem
      rw [← he]
      refine ⟨⟨⟨x, hx, rfl⟩, ⟨y, hy, rfl⟩⟩, ?_, ?_⟩
      · intro hee
        exact hne (hinj x hx y hy hee)
      · show intervalClass (σ x) (σ y) = c
        rw [hic x hx y hy]
        exact hc
  rw [himg]
  apply Finset.card_image_of_injOn
  intro u hu v hv he
  rw [Finset.mem_coe, Finset.mem_filter, Finset.mem_product] at hu hv
  obtain ⟨⟨hu1, hu2⟩, _, _⟩ := hu
  obtain ⟨⟨hv1, hv2⟩, _, _⟩ := hv
  rw [Prod.ext_iff] at he ⊢
  obtain ⟨he1, he2⟩ := he
  exact ⟨hinj u.1 hu1 v.1 hv1 he1, hinj u.2 hu2 v.2 hv2 he2⟩

theorem ucF_image (s : Finset Nat) (σ : Nat → Nat) (c : Nat)
    (hinj : ∀ a ∈ s, ∀ b ∈ s, σ a = σ b → a = b)
    (hic : ∀ a ∈ s, ∀ b ∈ s, intervalClass (σ a) (σ b) = intervalClass a b) :
    ucF (s.image σ) c = ucF s c := by
  have h1 := ocF_eq_two_mul_ucF (s.image σ) c
  have h2 := ocF_eq_two_mul_ucF s c
  have h3 := ocF_image s σ c hinj hic
  omega

theorem transposition_toFinset (p : PitchClassSet) (n : Int) :
    (p.transposition n).pitch_classes.toFinset =
      p.pitch_classes.toFinset.image (fun u : Nat => pyMod12 ((u : Int) + n)) := by
  ext v
  rw [List.mem_toFinset, mem_transposition, Finset.mem_image]
  constructor
  · rintro ⟨u, hu, he⟩
    exact ⟨u, List.mem_toFinset.2 hu, he⟩
  · rintro ⟨u, hu, he⟩
    exact ⟨u, List.mem_toFinset.1 hu, he⟩

theorem inversion_toFinset (p : PitchClassSet) (n : Int) :
    (p.inversion n).pitch_classes.toFinset =
      p.pitch_classes.toFinset.image (fun u : Nat => pyMod12 (n - (u : Int))) := by
  ext v
  rw [List.mem_toFinset, mem_inversion, Finset.mem_image]
  constructor
  · rintro ⟨u, hu, he⟩
    exact ⟨u, List.mem_toFinset.2 hu, he⟩
  · rintro ⟨u, hu, he⟩
    exact ⟨u, List.mem_toFinset.1 hu, he⟩

theorem sigma_t_inj {a b : Nat} (n : Int) (ha : a < 12) (hb : b < 12)
    (h : pyMod12 ((a : Int) + n) = pyMod12 ((b : Int) + n)) : a = b := by
  have hc := congrArg (fun m : Nat => (m : Int)) h
  simp only [cast_pyMod12] at hc
  omega

theorem sigma_i_inj {a b : Nat} (n : Int) (ha : a < 12) (hb : b < 12)
    (h : pyMod12 (n - (a : Int)) = pyMod12 (n - (b : Int))) : a = b := by
  have hc := congrArg (fun m : Nat => (m : Int)) h
  simp only [cast_pyMod12] at hc
  omega

theorem sigma_t_ic {a b : Nat} (n : Int) (ha : a < 12) (hb : b < 12) :
    intervalClass (pyMod12 ((a : Int) + n)) (pyMod12 ((b : Int) + n))
      = intervalClass a b := by
  unfold intervalClass pyMod12
  omega

theorem sigma_i_ic {a b : Nat} (n : Int) (ha : a < 12) (hb : b < 12) :
    intervalClass (pyMod12 (n - (a : Int))) (pyMod12 (n - (b : Int)))
      = intervalClass a b := by
  unfold intervalClass pyMod12
  omega

theorem interval_vector_transposition (p : PitchClassSet)
    (h : wfList p.pitch_classes) (n : Int) :
    (p.transposition n).interval_vector = p.interval_vector := by
  have hwfT : wfList (p.transposition n).pitch_classes := wf_normalizePCs _
  rw [interval_vector_eq _ hwfT, interval_vector_eq _ h]
  have hmem : ∀ a ∈ p.pitch_classes.toFinset, a < 12 :=
    fun a ha => h.2 a (List.mem_toFinset.1 ha)
  have hcnt : ∀ c, icCountC (allPairs (p.transposition n).pitch_classes) c
      = icCountC (allPairs p.pitch_classes) c := by
    intro c
    rw [icCountC_eq_ucF _ hwfT.1, icCountC_eq_ucF _ h.1, transposition_toFinset]
    exact ucF_image _ _ c
      (fun a ha b hb he => sigma_t_inj n (hmem a ha) (hmem b hb) he)
      (fun a ha b hb => sigma_t_ic n (hmem a ha) (hmem b hb))
  rw [hcnt 1, hcnt 2, hcnt 3, hcnt 4, hcnt 5, hcnt 6]

theorem interval_vector_inversion (p : PitchClassSet)
    (h : wfList p.pitch_classes) (n : Int) :
    (p.inversion n).interval_vector = p.interval_vector := by
  have hwfT : wfList (p.inversion n).pitch_classes := wf_normalizePCs _
  rw [interval_vector_eq _ hwfT, interval_vector_eq _ h]
  have hmem : ∀ a ∈ p.pitch_classes.toFinset, a < 12 :=
    fun a ha => h.2 a (List.mem_toFinset.1 ha)
  have hcnt : ∀ c, icCountC (allPairs (p.inversion n).pitch_classes) c
      = icCountC (allPairs p.pitch_classes) c := by
    intro c
    rw [icCountC_eq_ucF _ hwfT.1, icCountC_eq_ucF _ h.1, inversion_toFinset]
    exact ucF_image _ _ c
      (fun a ha b hb he => sigma_i_inj n (hmem a ha) (hmem b hb) he)
      (fun a ha b hb => sigma_i_ic n (hmem a ha) (hmem b hb))
  rw [hcnt 1, hcnt 2, hcnt 3, hcnt 4, hcnt 5, hcnt 6]

theorem sum_icCountC : ∀ ps : List (Nat × Nat),
    (∀ ab ∈ ps, 1 ≤ intervalClass ab.1 ab.2 ∧ intervalClass ab.1 ab.2 ≤ 6) →
    icCountC ps 1 + icCountC ps 2 + icCountC ps 3 + icCountC ps 4 + icCountC ps 5 +
      icCountC ps 6 = ps.length := by
  intro ps
  induction ps with
  | nil => intro _; rfl
  | cons ab ps ih =>
    intro hps
    obtain ⟨hab1, hab2⟩ := hps ab (List.mem_cons_self ab ps)
    have hps2 := fun x hx => hps x (List.mem_cons_of_mem ab hx)
    have hsum := ih hps2
    rw [icCountC_cons, icCountC_cons, icCountC_cons, icCountC_cons, icCountC_cons,
      icCountC_cons, List.length_cons]
    have hcase : intervalClass ab.1 ab.2 = 1 ∨ intervalClass ab.1 ab.2 = 2 ∨
        intervalClass ab.1 ab.2 = 3 ∨ intervalClass ab.1 ab.2 = 4 ∨
        intervalClass ab.1 ab.2 = 5 ∨ intervalClass ab.1 ab.2 = 6 := by omega
    rcases hcase with h | h | h | h | h | h <;> (rw [h]; norm_num; omega)

/-! ### Claim theorems -/

/-- C8: the interval vector is invariant under `transposition(n)` and
`inversion(n)` for every constructor-produced `PitchClassSet` and every
integer `n`. -/
theorem C8_interval_vector_TI_invariant (xs : List Int) (n : Int) :
    ((PitchClassSet.ofInts xs).transposition n).interval_vector
        = (PitchClassSet.ofInts xs).interval_vector ∧
      ((PitchClassSet.ofInts xs).inversion n).interval_vector
        = (PitchClassSet.ofInts xs).interval_vector :=
  ⟨interval_vector_transposition _ (wf_ofInts xs) n,
   interval_vector_inversion _ (wf_ofInts xs) n⟩

/-- C10: the interval-vector entries of every constructor-produced
`PitchClassSet` sum to `cardinality * (cardinality - 1) / 2`. -/
theorem C10_interval_vector_sum (xs : List Int) :
    ((PitchClassSet.ofInts xs).interval_vector).sum =
      (PitchClassSet.ofInts xs).cardinality *
        ((PitchClassSet.ofInts xs).cardinality - 1) / 2 := by
  have h := wf_ofInts xs
  rw [interval_vector_eq _ h]
  have hps : ∀ ab ∈ allPairs (PitchClassSet.ofInts xs).pitch_classes,
      1 ≤ intervalClass ab.1 ab.2 ∧ intervalClass ab.1 ab.2 ≤ 6 := by
    intro ab hab
    obtain ⟨h1, h2, h3⟩ := (mem_allPairs h.1).1 hab
    exact intervalClass_bounds h3 (h.2 _ h2)
  have hsum := sum_icCountC _ hps
  have hlen := two_mul_length_allPairs (PitchClassSet.ofInts xs).pitch_classes
  simp only [List.sum_cons, List.sum_nil, PitchClassSet.cardinality]
  generalize hq : (PitchClassSet.ofInts xs).pitch_classes.length *
    ((PitchClassSet.ofInts xs).pitch_classes.length - 1) = q at hlen ⊢
  omega

/-- C1 (failing-input evaluation): `prime_form` is not invariant under
transposition or inversion: for `PitchClassSet([0, 1])` both `T1` and `I3`
change the prime form computed by the code. -/
theorem C1_prime_form_not_TI_invariant :
    (PitchClassSet.ofInts [0, 1]).prime_form = [0, 1] ∧
    ((PitchClassSet.ofInts [0, 1]).transposition 1).prime_form = [1, 2] ∧
    ((PitchClassSet.ofInts [0, 1]).inversion 3).prime_form = [2, 3] ∧
    ([1, 2] : List Nat) ≠ [0, 1] ∧ ([2, 3] : List Nat) ≠ [0, 1] := by
  decide

/-- C4 (failing-input evaluation): `rotation(1)` of `PitchClassSet([0, 1])`
stores the re-sorted list `[0, 1]`, not the rotated sequence `[1, 0]` the
spec describes. -/
theorem C4_rotation_resorts :
    ((PitchClassSet.ofInts [0, 1]).rotation 1).pitch_classes = [0, 1] ∧
    ((PitchClassSet.ofInts [0, 1]).rotation 1).get_playback_order = [0, 1] ∧
    ([0, 1] : List Nat) ≠ [1] ++ [0] := by
  decide

/-- C5 (failing-input evaluation): `retrograde()` stores the reversed list and
`__eq__` compares stored lists, so `PitchClassSet([0, 1]).retrograde()` is not
equal to `PitchClassSet([0, 1])`. -/
theorem C5_retrograde_breaks_eq :
    (PitchClassSet.ofInts [0, 1]).retrograde.pitch_classes = [1, 0] ∧
    (PitchClassSet.ofInts [0, 1]).retrograde ≠ PitchClassSet.ofInts [0, 1] := by
  decide

/-! ### C2: prime-form fixed points of the table keys -/

theorem fix_table1 : forteTable1.all
    (fun e => e.1 == [0, 4, 6, 10] || (ofKey e.1).prime_form == e.1) = true := by decide

theorem fix_table2 : forteTable2.all
    (fun e => e.1 == [0, 4, 6, 10] || (ofKey e.1).prime_form == e.1) = true := by decide

theorem fix_table3 : forteTable3.all
    (fun e => e.1 == [0, 4, 6, 10] || (ofKey e.1).prime_form == e.1) = true := by decide

theorem fix_table4 : forteTable4.all
    (fun e => e.1 == [0, 4, 6, 10] || (ofKey e.1).prime_form == e.1) = true := by decide

theorem fix_table5 : forteTable5.all
    (fun e => e.1 == [0, 4, 6, 10] || (ofKey e.1).prime_form == e.1) = true := by decide

theorem fix_table6 : forteTable6.all
    (fun e => e.1 == [0, 4, 6, 10] || (ofKey e.1).prime_form == e.1) = true := by decide

theorem fix_table7 : forteTable7.all
    (fun e => e.1 == [0, 4, 6, 10] || (ofKey e.1).prime_form == e.1) = true := by decide

theorem fix_table8 : forteTable8.all
    (fun e => e.1 == [0, 4, 6, 10] || (ofKey e.1).prime_form == e.1) = true := by decide

theorem fix_table9 : forteTable9.all
    (fun e => e.1 == [0, 4, 6, 10] || (ofKey e.1).prime_form == e.1) = true := by decide

theorem fix_table10 : forteTable10.all
    (fun e => e.1 == [0, 4, 6, 10] || (ofKey e.1).prime_form == e.1) = true := by decide

theorem fix_table11 : forteTable11.all
    (fun e => e.1 == [0, 4, 6, 10] || (ofKey e.1).prime_form == e.1) = true := by decide

theorem fix_table12 : forteTable12.all
    (fun e => e.1 == [0, 4, 6, 10] || (ofKey e.1).prime_form == e.1) = true := by decide

theorem fixedpoint_of_all {tbl : List (List Nat × String)}
    (hall : tbl.all
      (fun e => e.1 == [0, 4, 6, 10] || (ofKey e.1).prime_form == e.1) = true)
    {k : List Nat} {lab : String} (hk : (k, lab) ∈ tbl) (hne : k ≠ [0, 4, 6, 10]) :
    (ofKey k).prime_form = k := by
  have h := List.all_eq_true.1 hall (k, lab) hk
  rw [Bool.or_eq_true, beq_iff_eq, beq_iff_eq] at h
  rcases h with h | h
  · exact absurd h hne
  · exact h

/-- C2 (counterexample): the table key `(0, 4, 6, 10)` (labelled `"4-29"`) is
not a fixed point of `prime_form`: the code reduces it to `[0, 2, 6, 8]`. -/
theorem C2_counterexample :
    ([0, 4, 6, 10], "4-29") ∈ forteTable4 ∧ (4, forteTable4) ∈ FORTE_TABLE ∧
    (ofKey [0, 4, 6, 10]).prime_form = [0, 2, 6, 8] ∧
    ([0, 2, 6, 8] : List Nat) ≠ [0, 4, 6, 10] := by
  decide

/-- C2 (amended): every prime form appearing in `FORTE_TABLE` other than the
single bad key `(0, 4, 6, 10)` is a fixed point of `prime_form`. -/
theorem C2_table_keys_fixed_points (c : Nat) (tbl : List (List Nat × String))
    (htbl : (c, tbl) ∈ FORTE_TABLE) (k : List Nat) (lab : String)
    (hk : (k, lab) ∈ tbl) (hne : k ≠ [0, 4, 6, 10]) :
    (ofKey k).prime_form = k := by
  have hcases : tbl = forteTable1 ∨ tbl = forteTable2 ∨ tbl = forteTable3 ∨
      tbl = forteTable4 ∨ tbl = forteTable5 ∨ tbl = forteTable6 ∨
      tbl = forteTable7 ∨ tbl = forteTable8 ∨ tbl = forteTable9 ∨
      tbl = forteTable10 ∨ tbl = forteTable11 ∨ tbl = forteTable12 := by
    rw [FORTE_TABLE] at htbl
    simp only [List.mem_cons, List.not_mem_nil, or_false] at htbl
    rcases htbl with h | h | h | h | h | h | h | h | h | h | h | h <;>
      (rw [Prod.mk.injEq] at h; tauto)
  rcases hcases with h | h | h | h | h | h | h | h | h | h | h | h <;> subst h
  · exact fixedpoint_of_all fix_table1 hk hne
  · exact fixedpoint_of_all fix_table2 hk hne
  · exact fixedpoint_of_all fix_table3 hk hne
  · exact fixedpoint_of_all fix_table4 hk hne
  · exact fixedpoint_of_all fix_table5 hk hne
  · exact fixedpoint_of_all fix_table6 hk hne
  · exact fixedpoint_of_all fix_table7 hk hne
  · exact fixedpoint_of_all fix_table8 hk hne
  · exact fixedpoint_of_all fix_table9 hk hne
  · exact fixedpoint_of_all fix_table10 hk hne
  · exact fixedpoint_of_all fix_table11 hk hne
  · exact fixedpoint_of_all fix_table12 hk hne

/-- C2 witness: the amended theorem applied at the key `(0, 1, 2)` of the
cardinality-3 block. -/
theorem C2_table_keys_fixed_points_witness : (ofKey [0, 1, 2]).prime_form = [0, 1, 2] :=
  C2_table_keys_fixed_points 3 forteTable3 (by decide) [0, 1, 2] "3-1"
    (by decide) (by decide)

/-! ### C9 and C7: duplicate labels and first-match resolution -/

/-- C9: for every duplicated Forte label the resolver returns the key that
appears first in the table's insertion order; in particular `"3-11"` resolves
to `PitchClassSet([0, 3, 7])` and never to `PitchClassSet([0, 4, 7])`. -/
theorem C9_first_key_resolution :
    get_set_from_forte_number "3-11" = some (PitchClassSet.ofInts [0, 3, 7]) ∧
    PitchClassSet.ofInts [0, 3, 7] ≠ PitchClassSet.ofInts [0, 4, 7] ∧
    get_set_from_forte_number "4-25" = some (PitchClassSet.ofInts [0, 3, 4, 7]) ∧
    get_set_from_forte_number "4-26" = some (PitchClassSet.ofInts [0, 3, 5, 8]) ∧
    get_set_from_forte_number "6-35" = some (PitchClassSet.ofInts [0, 1, 3, 6, 7, 8]) := by
  decide

/-- No two distinct keys of a table block share a Forte-number label. -/
@[reducible] def labelInjective (tbl : List (List Nat × String)) : Prop :=
  ∀ e1 ∈ tbl, ∀ e2 ∈ tbl, e1.2 = e2.2 → e1.1 = e2.1

/-- C7 (counterexample): the cardinality-3 block already has a duplicate label:
`(0, 3, 7)` and `(0, 4, 7)` are distinct keys both labelled `"3-11"`, so the
duplicates are not confined to cardinalities 4 and 6. -/
theorem C7_counterexample :
    ([0, 3, 7], "3-11") ∈ forteTable3 ∧ ([0, 4, 7], "3-11") ∈ forteTable3 ∧
    ([0, 3, 7] : List Nat) ≠ [0, 4, 7] ∧ ¬labelInjective forteTable3 := by
  decide

/-- C7 (amended): duplicate Forte-number assignments occur exactly at
cardinalities 3, 4 and 6; at every other cardinality the key-to-label mapping
is injective. -/
theorem C7_duplicates_at_3_4_6 :
    labelInjective forteTable1 ∧ labelInjective forteTable2 ∧
    labelInjective forteTable5 ∧ labelInjective forteTable7 ∧
    labelInjective forteTable8 ∧ labelInjective forteTable9 ∧
    labelInjective forteTable10 ∧ labelInjective forteTable11 ∧
    labelInjective forteTable12 ∧
    ([0, 3, 7], "3-11") ∈ forteTable3 ∧ ([0, 4, 7], "3-11") ∈ forteTable3 ∧
    ([0, 3, 7] : List Nat) ≠ [0, 4, 7] ∧
    ([0, 3, 4, 7], "4-25") ∈ forteTable4 ∧ ([0, 1, 5, 8], "4-25") ∈ forteTable4 ∧
    ([0, 3, 4, 7] : List Nat) ≠ [0, 1, 5, 8] ∧
    ([0, 3, 5, 8], "4-26") ∈ forteTable4 ∧ ([0, 2, 5, 9], "4-26") ∈ forteTable4 ∧
    ([0, 3, 5, 8] : List Nat) ≠ [0, 2, 5, 9] ∧
    ([0, 1, 3, 6, 7, 8], "6-35") ∈ forteTable6 ∧
    ([0, 2, 4, 6, 8, 10], "6-35") ∈ forteTable6 ∧
    ([0, 1, 3, 6, 7, 8] : List Nat) ≠ [0, 2, 4, 6, 8, 10] := by
  have h1 : labelInjective forteTable1 := by decide
  have h2 : labelInjective forteTable2 := by decide
  have h5 : labelInjective forteTable5 := by decide
  have h7 : labelInjective forteTable7 := by decide
  have h8 : labelInjective forteTable8 := by decide
  have h9 : labelInjective forteTable9 := by decide
  have h10 : labelInjective forteTable10 := by decide
  have h11 : labelInjective forteTable11 := by decide
  have h12 : labelInjective forteTable12 := by decide
  have d3 : ([0, 3, 7], "3-11") ∈ forteTable3 ∧ ([0, 4, 7], "3-11") ∈ forteTable3 ∧
      ([0, 3, 7] : List Nat) ≠ [0, 4, 7] := by decide
  have d425 : ([0, 3, 4, 7], "4-25") ∈ forteTable4 ∧
      ([0, 1, 5, 8], "4-25") ∈ forteTable4 ∧
      ([0, 3, 4, 7] : List Nat) ≠ [0, 1, 5, 8] := by decide
  have d426 : ([0, 3, 5, 8], "4-26") ∈ forteTable4 ∧
      ([0, 2, 5, 9], "4-26") ∈ forteTable4 ∧
      ([0, 3, 5, 8] : List Nat) ≠ [0, 2, 5, 9] := by decide
  have d635 : ([0, 1, 3, 6, 7, 8], "6-35") ∈ forteTable6 ∧
      ([0, 2, 4, 6, 8, 10], "6-35") ∈ forteTable6 ∧
      ([0, 1, 3, 6, 7, 8] : List Nat) ≠ [0, 2, 4, 6, 8, 10] := by decide
  exact ⟨h1, h2, h5, h7, h8, h9, h10, h11, h12, d3.1, d3.2.1, d3.2.2,
    d425.1, d425.2.1, d425.2.2, d426.1, d426.2.1, d426.2.2,
    d635.1, d635.2.1, d635.2.2⟩

/-! ### C3: round-trip through classification -/

/-- The four duplicate keys that are shadowed by an earlier key with the same
label during `get_set_from_forte_number`'s first-match search. -/
def shadowedKeys : List (List Nat) :=
  [[0, 4, 7], [0, 2, 5, 9], [0, 1, 5, 8], [0, 2, 4, 6, 8, 10]]

/-- C3 (counterexample): `PitchClassSet([0, 4, 7])` classifies as `"3-11"`,
which resolves back to the earlier key `[0, 3, 7]` whose prime form differs;
and `PitchClassSet([1, 2, 3])` does not classify at all. -/
theorem C3_counterexample :
    get_forte_number (PitchClassSet.ofInts [0, 4, 7]) = some "3-11" ∧
    get_set_from_forte_number "3-11" = some (PitchClassSet.ofInts [0, 3, 7]) ∧
    (PitchClassSet.ofInts [0, 3, 7]).prime_form = [0, 3, 7] ∧
    (PitchClassSet.ofInts [0, 4, 7]).prime_form = [0, 4, 7] ∧
    ([0, 3, 7] : List Nat) ≠ [0, 4, 7] ∧
    get_forte_number (PitchClassSet.ofInts [1, 2, 3]) = none := by
  decide

theorem res_table1 : forteTable1.all (fun e => decide (e.1 ∈ shadowedKeys) ||
    (get_set_from_forte_number e.2 == some (ofKey e.1))) = true := by decide

theorem res_table2 : forteTable2.all (fun e => decide (e.1 ∈ shadowedKeys) ||
    (get_set_from_forte_number e.2 == some (ofKey e.1))) = true := by decide

theorem res_table3 : forteTable3.all (fun e => decide (e.1 ∈ shadowedKeys) ||
    (get_set_from_forte_number e.2 == some (ofKey e.1))) = true := by decide

theorem res_table4 : forteTable4.all (fun e => decide (e.1 ∈ shadowedKeys) ||
    (get_set_from_forte_number e.2 == some (ofKey e.1))) = true := by decide

theorem res_table5 : forteTable5.all (fun e => decide (e.1 ∈ shadowedKeys) ||
    (get_set_from_forte_number e.2 == some (ofKey e.1))) = true := by decide

theorem res_table6 : forteTable6.all (fun e => decide (e.1 ∈ shadowedKeys) ||
    (get_set_from_forte_number e.2 == some (ofKey e.1))) = true := by decide

theorem res_table7 : forteTable7.all (fun e => decide (e.1 ∈ shadowedKeys) ||
    (get_set_from_forte_number e.2 == some (ofKey e.1))) = true := by decide

theorem res_table8 : forteTable8.all (fun e => decide (e.1 ∈ shadowedKeys) ||
    (get_set_from_forte_number e.2 == some (ofKey e.1))) = true := by decide

theorem res_table9 : forteTable9.all (fun e => decide (e.1 ∈ shadowedKeys) ||
    (get_set_from_forte_number e.2 == some (ofKey e.1))) = true := by decide

theorem res_table10 : forteTable10.all (fun e => decide (e.1 ∈ shadowedKeys) ||
    (get_set_from_forte_number e.2 == some (ofKey e.1))) = true := by decide

theorem res_table11 : forteTable11.all (fun e => decide (e.1 ∈ shadowedKeys) ||
    (get_set_from_forte_number e.2 == some (ofKey e.1))) = true := by decide

theorem res_table12 : forteTable12.all (fun e => decide (e.1 ∈ shadowedKeys) ||
    (get_set_from_forte_number e.2 == some (ofKey e.1))) = true := by decide

theorem tableLookupCard_mem {c : Nat} {tbl : List (List Nat × String)}
    (h : tableLookupCard c = some tbl) :
    tbl = forteTable1 ∨ tbl = forteTable2 ∨ tbl = forteTable3 ∨
    tbl = forteTable4 ∨ tbl = forteTable5 ∨ tbl = forteTable6 ∨
    tbl = forteTable7 ∨ tbl = forteTable8 ∨ tbl = forteTable9 ∨
    tbl = forteTable10 ∨ tbl = forteTable11 ∨ tbl = forteTable12 := by
  unfold tableLookupCard at h
  cases hf : FORTE_TABLE.find? (fun e => e.1 == c) with
  | none =>
    rw [hf] at h
    simp at h
  | some e =>
    rw [hf] at h
    simp only [Option.map_some', Option.some.injEq] at h
    have hm := List.mem_of_find?_eq_some hf
    rw [FORTE_TABLE] at hm
    simp only [List.mem_cons, List.not_mem_nil, or_false] at hm
    rcases hm with hh | hh | hh | hh | hh | hh | hh | hh | hh | hh | hh | hh <;>
      (rw [hh] at h; simp only at h; tauto)

theorem res_all_blocks {c : Nat} {tbl : List (List Nat × String)}
    (h : tableLookupCard c = some tbl) :
    tbl.all (fun e => decide (e.1 ∈ shadowedKeys) ||
      (get_set_from_forte_number e.2 == some (ofKey e.1))) = true := by
  rcases tableLookupCard_mem h with hh|hh|hh|hh|hh|hh|hh|hh|hh|hh|hh|hh <;> subst hh
  · exact res_table1
  · exact res_table2
  · exact res_table3
  · exact res_table4
  · exact res_table5
  · exact res_table6
  · exact res_table7
  · exact res_table8
  · exact res_table9
  · exact res_table10
  · exact res_table11
  · exact res_table12

/-- C3 (amended): the classification round trip holds for every set whose
prime form is not one of the four shadowed duplicate keys: if
`get_forte_number` returns a label, resolving that label gives a set with the
same prime form. -/
theorem C3_roundtrip_amended (xs : List Int) (L : String)
    (hL : get_forte_number (PitchClassSet.ofInts xs) = some L)
    (hns : (PitchClassSet.ofInts xs).prime_form ∉ shadowedKeys) :
    ∃ q, get_set_from_forte_number L = some q ∧
      q.prime_form = (PitchClassSet.ofInts xs).prime_form := by
  unfold get_forte_number at hL
  cases htbl : tableLookupCard (PitchClassSet.ofInts xs).cardinality with
  | none =>
    rw [htbl] at hL
    simp at hL
  | some tbl =>
    rw [htbl] at hL
    simp only [] at hL
    cases hf : tbl.find?
        (fun e => e.1 == (PitchClassSet.ofInts xs).prime_form) with
    | none =>
      rw [hf] at hL
      simp at hL
    | some en =>
      rw [hf] at hL
      simp only [Option.map_some', Option.some.injEq] at hL
      have hpred := List.find?_some hf
      rw [beq_iff_eq] at hpred
      have hmem := List.mem_of_find?_eq_some hf
      have h2 := List.all_eq_true.1 (res_all_blocks htbl) en hmem
      rw [Bool.or_eq_true, decide_eq_true_eq, beq_iff_eq] at h2
      rcases h2 with h2 | h2
      · rw [hpred] at h2
        exact absurd h2 hns
      · refine ⟨ofKey en.1, ?_, ?_⟩
        · rw [← hL]
          exact h2
        · rw [hpred]
          have hwfp : wfList (PitchClassSet.ofInts xs).prime_form :=
            prime_form_wf _ (wf_ofInts xs)
          have hok : ofKey (PitchClassSet.ofInts xs).prime_form =
              PitchClassSet.mk (PitchClassSet.ofInts xs).prime_form := by
            unfold ofKey PitchClassSet.ofInts
            congr 1
            exact normalizePCs_of_wf hwfp
          rw [hok, prime_form_idem _ (wf_ofInts xs)]

/-- C3 witness: the amended round trip applied to `PitchClassSet([0, 1, 2])`
and its label `"3-1"`. -/
theorem C3_roundtrip_amended_witness :
    ∃ q, get_set_from_forte_number "3-1" = some q ∧
      q.prime_form = (PitchClassSet.ofInts [0, 1, 2]).prime_form :=
  C3_roundtrip_amended [0, 1, 2] "3-1" (by decide) (by decide)

/-! ### C6: what `get_z_partner` returns -/

/-- A table entry together with the interval vector of its reconstructed set. -/
def annFun (e : List Nat × String) : List Nat × String × List Nat :=
  (e.1, e.2, (ofKey e.1).interval_vector)
/-- Cardinality-1 block annotated with each key's interval vector
(verified against the embedding by `ann_table1`). -/
def annTable1 : List (List Nat × String × List Nat) :=
  [([0], "1-1", [0, 0, 0, 0, 0, 0])]

/-- Cardinality-2 block annotated with each key's interval vector
(verified against the embedding by `ann_table2`). -/
def annTable2 : List (List Nat × String × List Nat) :=
  [([0, 1], "2-1", [1, 0, 0, 0, 0, 0]),
   ([0, 2], "2-2", [0, 1, 0, 0, 0, 0]),
   ([0, 3], "2-3", [0, 0, 1, 0, 0, 0]),
   ([0, 4], "2-4", [0, 0, 0, 1, 0, 0]),
   ([0, 5], "2-5", [0, 0, 0, 0, 1, 0]),
   ([0, 6], "2-6", [0, 0, 0, 0, 0, 1])]

/-- Cardinality-3 block annotated with each key's interval vector
(verified against the embedding by `ann_table3`). -/
def annTable3 : List (List Nat × String × List Nat) :=
  [([0, 1, 2], "3-1", [2, 1, 0, 0, 0, 0]),
   ([0, 1, 3], "3-2", [1, 1, 1, 0, 0, 0]),
   ([0, 1, 4], "3-3", [1, 0, 1, 1, 0, 0]),
   ([0, 1, 5], "3-4", [1, 0, 0, 1, 1, 0]),
   ([0, 1, 6], "3-5", [1, 0, 0, 0, 1, 1]),
   ([0, 2, 4], "3-6", [0, 2, 0, 1, 0, 0]),
   ([0, 2, 5], "3-7", [0, 1, 1, 0, 1, 0]),
   ([0, 2, 6], "3-8", [0, 1, 0, 1, 0, 1]),
   ([0, 2, 7], "3-9", [0, 1, 0, 0, 2, 0]),
   ([0, 3, 6], "3-10", [0, 0, 2, 0, 0, 1]),
   ([0, 3, 7], "3-11", [0, 0, 1, 1, 1, 0]),
   ([0, 4, 7], "3-11", [0, 0, 1, 1, 1, 0]),
   ([0, 4, 8], "3-12", [0, 0, 0, 3, 0, 0])]

/-- Cardinality-4 block annotated with each key's interval vector
(verified against the embedding by `ann_table4`). -/
def annTable4 : List (List Nat × String × List Nat) :=
  [([0, 1, 2, 3], "4-1", [3, 2, 1, 0, 0, 0]),
   ([0, 1, 2, 4], "4-2", [2, 2, 1, 1, 0, 0]),
   ([0, 1, 2, 5], "4-3", [2, 1, 1, 1, 1, 0]),
   ([0, 1, 2, 6], "4-4", [2, 1, 0, 1, 1, 1]),
   ([0, 1, 2, 7], "4-5", [2, 1, 0, 0, 2, 1]),
   ([0, 1, 3, 4], "4-6", [2, 1, 2, 1, 0, 0]),
   ([0, 1, 3, 5], "4-7", [1, 2, 1, 1, 1, 0]),
   ([0, 1, 3, 6], "4-8", [1, 1, 2, 0, 1, 1]),
   ([0, 1, 3, 7], "4-9", [1, 1, 1, 1, 1, 1]),
   ([0, 1, 4, 5], "4-10", [2, 0, 1, 2, 1, 0]),
   ([0, 1, 4, 6], "4-11", [1, 1, 1, 1, 1, 1]),
   ([0, 1, 4, 7], "4-12", [1, 0, 2, 1, 1, 1]),
   ([0, 1, 5, 6], "4-13", [2, 0, 0, 1, 2, 1]),
   ([0, 1, 5, 7], "4-14", [1, 1, 0, 1, 2, 1]),
   ([0, 1, 6, 7], "4-15", [2, 0, 0, 0, 2, 2]),
   ([0, 2, 3, 5], "4-16", [1, 2, 2, 0, 1, 0]),
   ([0, 2, 3, 6], "4-17", [1, 1, 2, 1, 0, 1]),
   ([0, 2, 3, 7], "4-18", [1, 1, 1, 1, 2, 0]),
   ([0, 2, 4, 6], "4-19", [0, 3, 0, 2, 0, 1]),
   ([0, 2, 4, 7], "4-20", [0, 2, 1, 1, 2, 0]),
   ([0, 2, 4, 8], "4-21", [0, 2, 0, 3, 0, 1]),
   ([0, 2, 5, 7], "4-22", [0, 2, 1, 0, 3, 0]),
   ([0, 2, 5, 8], "4-23", [0, 1, 2, 1, 1, 1]),
   ([0, 2, 6, 8], "4-24", [0, 2, 0, 2, 0, 2]),
   ([0, 3, 4, 7], "4-25", [1, 0, 2, 2, 1, 0]),
   ([0, 3, 5, 8], "4-26", [0, 1, 2, 1, 2, 0]),
   ([0, 3, 6, 9], "4-27", [0, 0, 4, 0, 0, 2]),
   ([0, 4, 5, 8], "4-28", [1, 0, 1, 3, 1, 0]),
   ([0, 4, 6, 10], "4-29", [0, 2, 0, 2, 0, 2]),
   ([0, 2, 5, 9], "4-26", [0, 1, 2, 1, 2, 0]),
   ([0, 1, 5, 8], "4-25", [1, 0, 1, 2, 2, 0])]

/-- Cardinality-5 block annotated with each key's interval vector
(verified against the embedding by `ann_table5`). -/
def annTable5 : List (List Nat × String × List Nat) :=
  [([0, 1, 2, 3, 4], "5-1", [4, 3, 2, 1, 0, 0]),
   ([0, 1, 2, 3, 5], "5-2", [3, 3, 2, 1, 1, 0]),
   ([0, 1, 2, 3, 6], "5-3", [3, 2, 2, 1, 1, 1]),
   ([0, 1, 2, 3, 7], "5-4", [3, 2, 1, 1, 2, 1]),
   ([0, 1, 2, 4, 5], "5-5", [3, 2, 2, 2, 1, 0]),
   ([0, 1, 2, 4, 6], "5-6", [2, 3, 1, 2, 1, 1]),
   ([0, 1, 2, 4, 7], "5-7", [2, 2, 2, 1, 2, 1]),
   ([0, 1, 2, 4, 8], "5-8", [2, 2, 1, 3, 1, 1]),
   ([0, 1, 2, 5, 6], "5-9", [3, 1, 1, 2, 2, 1]),
   ([0, 1, 2, 5, 7], "5-10", [2, 2, 1, 1, 3, 1]),
   ([0, 1, 2, 5, 8], "5-11", [2, 1, 2, 2, 2, 1]),
   ([0, 1, 2, 6, 7], "5-12", [3, 1, 0, 1, 3, 2]),
   ([0, 1, 2, 6, 8], "5-13", [2, 2, 0, 2, 2, 2]),
   ([0, 1, 2, 6, 9], "5-14", [2, 1, 2, 2, 2, 1]),
   ([0, 1, 3, 4, 5], "5-15", [3, 2, 2, 2, 1, 0]),
   ([0, 1, 3, 4, 6], "5-16", [2, 2, 3, 1, 1, 1]),
   ([0, 1, 3, 4, 7], "5-17", [2, 1, 3, 2, 1, 1]),
   ([0, 1, 3, 4, 8], "5-18", [2, 1, 2, 3, 2, 0]),
   ([0, 1, 3, 5, 6], "5-19", [2, 2, 2, 1, 2, 1]),
   ([0, 1, 3, 5, 7], "5-20", [1, 3, 1, 2, 2, 1]),
   ([0, 1, 3, 5, 8], "5-21", [1, 2, 2, 2, 3, 0]),
   ([0, 1, 3, 6, 7], "5-22", [2, 1, 2, 1, 2, 2]),
   ([0, 1, 3, 6, 8], "5-23", [1, 2, 2, 1, 3, 1]),
   ([0, 1, 3, 6, 9], "5-24", [1, 1, 4, 1, 1, 2]),
   ([0, 1, 4, 5, 6], "5-25", [3, 1, 1, 2, 2, 1]),
   ([0, 1, 4, 5, 7], "5-26", [2, 1, 2, 2, 2, 1]),
   ([0, 1, 4, 5, 8], "5-27", [2, 0, 2, 4, 2, 0]),
   ([0, 1, 4, 6, 7], "5-28", [2, 1, 2, 1, 2, 2]),
   ([0, 1, 4, 6, 8], "5-29", [1, 2, 1, 3, 2, 1]),
   ([0, 1, 4, 6, 9], "5-30", [1, 1, 3, 2, 2, 1]),
   ([0, 1, 5, 6, 7], "5-31", [3, 1, 0, 1, 3, 2]),
   ([0, 1, 5, 6, 8], "5-32", [2, 1, 1, 2, 3, 1]),
   ([0, 1, 5, 6, 9], "5-33", [2, 0, 2, 3, 2, 1]),
   ([0, 2, 3, 4, 6], "5-34", [2, 3, 2, 2, 0, 1]),
   ([0, 2, 3, 4, 7], "5-35", [2, 2, 2, 2, 2, 0]),
   ([0, 2, 3, 5, 7], "5-36", [1, 3, 2, 1, 3, 0]),
   ([0, 2, 3, 5, 8], "5-37", [1, 2, 3, 1, 2, 1]),
   ([0, 2, 4, 5, 8], "5-38", [1, 2, 2, 3, 1, 1])]

/-- Cardinality-6 block annotated with each key's interval vector
(verified against the embedding by `ann_table6`). -/
def annTable6 : List (List Nat × String × List Nat) :=
  [([0, 1, 2, 3, 4, 5], "6-1", [5, 4, 3, 2, 1, 0]),
   ([0, 1, 2, 3, 4, 6], "6-2", [4, 4, 3, 2, 1, 1]),
   ([0, 1, 2, 3, 4, 7], "6-3", [4, 3, 3, 2, 2, 1]),
   ([0, 1, 2, 3, 5, 6], "6-4", [4, 3, 3, 2, 2, 1]),
   ([0, 1, 2, 3, 5, 7], "6-5", [3, 4, 2, 2, 3, 1]),
   ([0, 1, 2, 3, 5, 8], "6-6", [3, 3, 3, 2, 3, 1]),
   ([0, 1, 2, 3, 6, 7], "6-7", [4, 2, 2, 2, 3, 2]),
   ([0, 1, 2, 3, 6, 8], "6-8", [3, 3, 2, 2, 3, 2]),
   ([0, 1, 2, 3, 6, 9], "6-9", [3, 2, 4, 2, 2, 2]),
   ([0, 1, 2, 4, 5, 6], "6-10", [4, 3, 2, 3, 2, 1]),
   ([0, 1, 2, 4, 5, 7], "6-11", [3, 3, 3, 2, 3, 1]),
   ([0, 1, 2, 4, 5, 8], "6-12", [3, 2, 3, 4, 2, 1]),
   ([0, 1, 2, 4, 6, 7], "6-13", [3, 3, 2, 2, 3, 2]),
   ([0, 1, 2, 4, 6, 8], "6-14", [2, 4, 1, 4, 2, 2]),
   ([0, 1, 2, 4, 6, 9], "6-15", [2, 3, 3, 3, 3, 1]),
   ([0, 1, 2, 4, 7, 8], "6-16", [3, 2, 2, 3, 3, 2]),
   ([0, 1, 2, 5, 6, 7], "6-17", [4, 2, 1, 2, 4, 2]),
   ([0, 1, 2, 5, 6, 8], "6-18", [3, 2, 2, 3, 3, 2]),
   ([0, 1, 2, 5, 6, 9], "6-19", [3, 1, 3, 4, 3, 1]),
   ([0, 1, 2, 5, 7, 8], "6-20", [3, 2, 2, 2, 4, 2]),
   ([0, 1, 2, 6, 7, 8], "6-21", [4, 2, 0, 2, 4, 3]),
   ([0, 1, 2, 6, 7, 9], "6-22", [3, 2, 2, 2, 4, 2]),
   ([0, 1, 2, 6, 8, 10], "6-23", [2, 4, 1, 4, 2, 2]),
   ([0, 1, 3, 4, 5, 6], "6-24", [4, 3, 3, 2, 2, 1]),
   ([0, 1, 3, 4, 5, 7], "6-25", [3, 3, 3, 3, 2, 1]),
   ([0, 1, 3, 4, 5, 8], "6-26", [3, 2, 3, 4, 3, 0]),
   ([0, 1, 3, 4, 6, 7], "6-27", [3, 2, 4, 2, 2, 2]),
   ([0, 1, 3, 4, 6, 8], "6-28", [2, 3, 3, 3, 3, 1]),
   ([0, 1, 3, 4, 6, 9], "6-29", [2, 2, 5, 2, 2, 2]),
   ([0, 1, 3, 4, 7, 8], "6-30", [3, 1, 3, 4, 3, 1]),
   ([0, 1, 3, 5, 6, 7], "6-31", [3, 3, 2, 2, 3, 2]),
   ([0, 1, 3, 5, 6, 8], "6-32", [2, 3, 3, 2, 4, 1]),
   ([0, 1, 3, 5, 6, 9], "6-33", [2, 2, 4, 3, 2, 2]),
   ([0, 1, 3, 5, 7, 8], "6-34", [2, 3, 2, 3, 4, 1]),
   ([0, 1, 3, 6, 7, 8], "6-35", [3, 2, 2, 2, 4, 2]),
   ([0, 1, 3, 6, 7, 9], "6-36", [2, 2, 4, 2, 2, 3]),
   ([0, 1, 3, 6, 8, 9], "6-37", [2, 2, 4, 2, 3, 2]),
   ([0, 1, 4, 5, 6, 7], "6-38", [4, 2, 2, 2, 3, 2]),
   ([0, 1, 4, 5, 6, 8], "6-39", [3, 2, 2, 4, 3, 1]),
   ([0, 1, 4, 5, 6, 9], "6-40", [3, 1, 3, 4, 3, 1]),
   ([0, 1, 4, 5, 7, 8], "6-41", [3, 1, 3, 4, 3, 1]),
   ([0, 1, 4, 6, 7, 8], "6-42", [3, 2, 2, 3, 3, 2]),
   ([0, 1, 4, 6, 7, 9], "6-43", [2, 2, 4, 2, 3, 2]),
   ([0, 1, 4, 6, 8, 9], "6-44", [2, 2, 3, 4, 3, 1]),
   ([0, 1, 5, 6, 7, 8], "6-45", [4, 2, 1, 2, 4, 2]),
   ([0, 1, 5, 6, 7, 9], "6-46", [3, 2, 2, 3, 3, 2]),
   ([0, 1, 5, 6, 8, 9], "6-47", [3, 1, 3, 4, 3, 1]),
   ([0, 2, 3, 4, 5, 7], "6-48", [3, 4, 3, 2, 3, 0]),
   ([0, 2, 3, 4, 6, 8], "6-49", [2, 4, 2, 4, 1, 2]),
   ([0, 2, 3, 5, 6, 8], "6-50", [2, 3, 4, 2, 2, 2]),
   ([0, 2, 4, 6, 8, 10], "6-35", [0, 6, 0, 6, 0, 3])]

/-- Cardinality-7 block annotated with each key's interval vector
(verified against the embedding by `ann_table7`). -/
def annTable7 : List (List Nat × String × List Nat) :=
  [([0, 1, 2, 3, 4, 5, 6], "7-1", [6, 5, 4, 3, 2, 1]),
   ([0, 1, 2, 3, 4, 5, 7], "7-2", [5, 5, 4, 3, 3, 1]),
   ([0, 1, 2, 3, 4, 5, 8], "7-3", [5, 4, 4, 4, 3, 1]),
   ([0, 1, 2, 3, 4, 6, 7], "7-4", [5, 4, 4, 3, 3, 2]),
   ([0, 1, 2, 3, 4, 6, 8], "7-5", [4, 5, 3, 4, 3, 2]),
   ([0, 1, 2, 3, 4, 6, 9], "7-6", [4, 4, 5, 3, 3, 2]),
   ([0, 1, 2, 3, 5, 6, 7], "7-7", [5, 4, 3, 3, 4, 2]),
   ([0, 1, 2, 3, 5, 6, 8], "7-8", [4, 4, 4, 3, 4, 2]),
   ([0, 1, 2, 3, 5, 6, 9], "7-9", [4, 3, 5, 4, 3, 2]),
   ([0, 1, 2, 3, 5, 7, 8], "7-10", [4, 4, 3, 3, 5, 2]),
   ([0, 1, 2, 3, 6, 7, 8], "7-11", [5, 3, 2, 3, 5, 3]),
   ([0, 1, 2, 3, 6, 7, 9], "7-12", [4, 3, 4, 3, 4, 3]),
   ([0, 1, 2, 3, 6, 8, 9], "7-13", [4, 3, 4, 3, 4, 3]),
   ([0, 1, 2, 4, 5, 6, 7], "7-14", [5, 4, 3, 3, 4, 2]),
   ([0, 1, 2, 4, 5, 6, 8], "7-15", [4, 4, 3, 5, 3, 2]),
   ([0, 1, 2, 4, 5, 6, 9], "7-16", [4, 3, 4, 5, 4, 1]),
   ([0, 1, 2, 4, 5, 7, 8], "7-17", [4, 3, 4, 4, 4, 2]),
   ([0, 1, 2, 4, 6, 7, 8], "7-18", [4, 4, 2, 4, 4, 3]),
   ([0, 1, 2, 4, 6, 7, 9], "7-19", [3, 4, 4, 3, 5, 2]),
   ([0, 1, 2, 4, 6, 8, 9], "7-20", [3, 4, 3, 5, 4, 2]),
   ([0, 1, 2, 5, 6, 7, 8], "7-21", [5, 3, 2, 3, 5, 3]),
   ([0, 1, 2, 5, 6, 7, 9], "7-22", [4, 3, 3, 4, 5, 2]),
   ([0, 1, 2, 5, 6, 8, 9], "7-23", [4, 2, 4, 5, 4, 2]),
   ([0, 1, 2, 6, 7, 8, 9], "7-24", [5, 3, 2, 3, 5, 3]),
   ([0, 1, 3, 4, 5, 6, 7], "7-25", [5, 4, 4, 3, 3, 2]),
   ([0, 1, 3, 4, 5, 6, 8], "7-26", [4, 4, 4, 4, 4, 1]),
   ([0, 1, 3, 4, 5, 6, 9], "7-27", [4, 3, 5, 4, 3, 2]),
   ([0, 1, 3, 4, 5, 7, 8], "7-28", [4, 3, 4, 5, 4, 1]),
   ([0, 1, 3, 4, 6, 7, 8], "7-29", [4, 3, 4, 4, 4, 2]),
   ([0, 1, 3, 4, 6, 7, 9], "7-30", [3, 3, 6, 3, 3, 3]),
   ([0, 1, 3, 5, 6, 7, 8], "7-31", [4, 4, 3, 3, 5, 2]),
   ([0, 1, 3, 5, 6, 7, 9], "7-32", [3, 4, 4, 4, 3, 3]),
   ([0, 1, 4, 5, 6, 7, 8], "7-33", [5, 3, 3, 4, 4, 2]),
   ([0, 1, 4, 5, 6, 7, 9], "7-34", [4, 3, 4, 4, 4, 2]),
   ([0, 1, 4, 5, 6, 8, 9], "7-35", [4, 2, 4, 6, 4, 1]),
   ([0, 1, 5, 6, 7, 8, 9], "7-36", [5, 3, 3, 4, 4, 2]),
   ([0, 2, 3, 4, 5, 6, 8], "7-37", [4, 5, 4, 4, 2, 2]),
   ([0, 2, 3, 4, 5, 7, 9], "7-38", [3, 5, 4, 3, 5, 1])]

/-- Cardinality-8 block annotated with each key's interval vector
(verified against the embedding by `ann_table8`). -/
def annTable8 : List (List Nat × String × List Nat) :=
  [([0, 1, 2, 3, 4, 5, 6, 7], "8-1", [7, 6, 5, 4, 4, 2]),
   ([0, 1, 2, 3, 4, 5, 6, 8], "8-2", [6, 6, 5, 5, 4, 2]),
   ([0, 1, 2, 3, 4, 5, 6, 9], "8-3", [6, 5, 6, 5, 4, 2]),
   ([0, 1, 2, 3, 4, 5, 7, 8], "8-4", [6, 5, 5, 5, 5, 2]),
   ([0, 1, 2, 3, 4, 5, 7, 9], "8-5", [5, 6, 5, 5, 5, 2]),
   ([0, 1, 2, 3, 4, 6, 7, 8], "8-6", [6, 5, 4, 5, 5, 3]),
   ([0, 1, 2, 3, 4, 6, 7, 9], "8-7", [5, 5, 6, 4, 5, 3]),
   ([0, 1, 2, 3, 4, 6, 8, 9], "8-8", [5, 5, 5, 5, 5, 3]),
   ([0, 1, 2, 3, 5, 6, 7, 8], "8-9", [6, 5, 4, 4, 6, 3]),
   ([0, 1, 2, 3, 5, 6, 7, 9], "8-10", [5, 5, 5, 5, 5, 3]),
   ([0, 1, 2, 3, 5, 6, 8, 9], "8-11", [5, 4, 6, 5, 5, 3]),
   ([0, 1, 2, 3, 6, 7, 8, 9], "8-12", [6, 4, 4, 4, 6, 4]),
   ([0, 1, 2, 4, 5, 6, 7, 8], "8-13", [6, 5, 4, 5, 5, 3]),
   ([0, 1, 2, 4, 5, 6, 7, 9], "8-14", [5, 5, 5, 5, 6, 2]),
   ([0, 1, 2, 4, 5, 6, 8, 9], "8-15", [5, 4, 5, 7, 5, 2]),
   ([0, 1, 2, 4, 6, 7, 8, 9], "8-16", [5, 5, 4, 5, 6, 3]),
   ([0, 1, 2, 5, 6, 7, 8, 9], "8-17", [6, 4, 4, 5, 6, 3]),
   ([0, 1, 3, 4, 5, 6, 7, 8], "8-18", [6, 5, 5, 5, 5, 2]),
   ([0, 1, 3, 4, 5, 6, 7, 9], "8-19", [5, 5, 6, 5, 4, 3]),
   ([0, 1, 3, 4, 5, 6, 8, 9], "8-20", [5, 4, 6, 6, 5, 2]),
   ([0, 1, 3, 4, 6, 7, 8, 9], "8-21", [5, 4, 6, 5, 5, 3]),
   ([0, 1, 3, 5, 6, 7, 8, 9], "8-22", [5, 5, 5, 5, 5, 3]),
   ([0, 1, 4, 5, 6, 7, 8, 9], "8-23", [6, 4, 5, 6, 5, 2]),
   ([0, 2, 3, 4, 5, 6, 7, 8], "8-24", [6, 6, 5, 5, 4, 2]),
   ([0, 2, 3, 4, 5, 6, 7, 9], "8-25", [5, 6, 6, 4, 5, 2]),
   ([0, 2, 3, 4, 5, 6, 8, 9], "8-26", [5, 5, 6, 5, 4, 3]),
   ([0, 2, 3, 4, 5, 7, 8, 9], "8-27", [5, 5, 5, 5, 6, 2]),
   ([0, 2, 3, 4, 6, 7, 8, 9], "8-28", [5, 5, 5, 5, 5, 3]),
   ([0, 2, 4, 5, 6, 7, 8, 9], "8-29", [5, 6, 5, 5, 5, 2])]

/-- Cardinality-9 block annotated with each key's interval vector
(verified against the embedding by `ann_table9`). -/
def annTable9 : List (List Nat × String × List Nat) :=
  [([0, 1, 2, 3, 4, 5, 6, 7, 8], "9-1", [8, 7, 6, 6, 6, 3]),
   ([0, 1, 2, 3, 4, 5, 6, 7, 9], "9-2", [7, 7, 7, 6, 6, 3]),
   ([0, 1, 2, 3, 4, 5, 6, 8, 9], "9-3", [7, 6, 7, 7, 6, 3]),
   ([0, 1, 2, 3, 4, 5, 7, 8, 9], "9-4", [7, 6, 6, 7, 7, 3]),
   ([0, 1, 2, 3, 4, 6, 7, 8, 9], "9-5", [7, 6, 6, 6, 7, 4]),
   ([0, 1, 2, 3, 5, 6, 7, 8, 9], "9-6", [7, 6, 6, 6, 7, 4]),
   ([0, 1, 2, 4, 5, 6, 7, 8, 9], "9-7", [7, 6, 6, 7, 7, 3]),
   ([0, 1, 3, 4, 5, 6, 7, 8, 9], "9-8", [7, 6, 7, 7, 6, 3]),
   ([0, 2, 3, 4, 5, 6, 7, 8, 9], "9-9", [7, 7, 7, 6, 6, 3]),
   ([0, 1, 2, 3, 4, 5, 6, 7, 10], "9-10", [7, 7, 7, 6, 6, 3]),
   ([0, 1, 2, 3, 4, 5, 6, 8, 10], "9-11", [6, 8, 6, 7, 6, 3]),
   ([0, 1, 2, 3, 4, 5, 7, 8, 10], "9-12", [6, 7, 7, 6, 7, 3])]

/-- Cardinality-10 block annotated with each key's interval vector
(verified against the embedding by `ann_table10`). -/
def annTable10 : List (List Nat × String × List Nat) :=
  [([0, 1, 2, 3, 4, 5, 6, 7, 8, 9], "10-1", [9, 8, 8, 8, 8, 4]),
   ([0, 1, 2, 3, 4, 5, 6, 7, 8, 10], "10-2", [8, 9, 8, 8, 8, 4]),
   ([0, 1, 2, 3, 4, 5, 6, 7, 9, 10], "10-3", [8, 8, 9, 8, 8, 4]),
   ([0, 1, 2, 3, 4, 5, 6, 8, 9, 10], "10-4", [8, 8, 8, 9, 8, 4]),
   ([0, 1, 2, 3, 4, 5, 7, 8, 9, 10], "10-5", [8, 8, 8, 8, 9, 4]),
   ([0, 1, 2, 3, 4, 6, 7, 8, 9, 10], "10-6", [8, 8, 8, 8, 8, 5])]

/-- Cardinality-11 block annotated with each key's interval vector
(verified against the embedding by `ann_table11`). -/
def annTable11 : List (List Nat × String × List Nat) :=
  [([0, 1, 2, 3, 4, 5, 6, 7, 8, 9, 10], "11-1", [10, 10, 10, 10, 10, 5])]

/-- Cardinality-12 block annotated with each key's interval vector
(verified against the embedding by `ann_table12`). -/
def annTable12 : List (List Nat × String × List Nat) :=
  [([0, 1, 2, 3, 4, 5, 6, 7, 8, 9, 10, 11], "12-1", [12, 12, 12, 12, 12, 6])]
theorem ann_table1 : forteTable1.map annFun = annTable1 := by decide

theorem ann_table2 : forteTable2.map annFun = annTable2 := by decide

theorem ann_table3 : forteTable3.map annFun = annTable3 := by decide

theorem ann_table4 : forteTable4.map annFun = annTable4 := by decide

theorem ann_table5 : forteTable5.map annFun = annTable5 := by decide

theorem ann_table6 : forteTable6.map annFun = annTable6 := by decide

theorem ann_table7 : forteTable7.map annFun = annTable7 := by decide

theorem ann_table8 : forteTable8.map annFun = annTable8 := by decide

theorem ann_table9 : forteTable9.map annFun = annTable9 := by decide

theorem ann_table10 : forteTable10.map annFun = annTable10 := by decide

theorem ann_table11 : forteTable11.map annFun = annTable11 := by decide

theorem ann_table12 : forteTable12.map annFun = annTable12 := by decide

/-- The per-key soundness check behind the amended C6: if a key has a same-
cardinality partner with a different label and the key's interval vector, then
that partner's label resolves to a set with that same interval vector. -/
def zentryOK (ann : List (List Nat × String × List Nat))
    (t : List Nat × String × List Nat) : Bool :=
  ((ann.find? (fun t2 => t2.2.1 != t.2.1 && t2.2.2 == t.2.2)).map
    (fun t2 => ((get_set_from_forte_number t2.2.1).map
      (fun q => q.interval_vector == t.2.2)).getD false)).getD true

theorem zfact1 : annTable1.all (zentryOK annTable1) = true := by decide

theorem zfact2 : annTable2.all (zentryOK annTable2) = true := by decide

theorem zfact3 : annTable3.all (zentryOK annTable3) = true := by decide

theorem zfact4 : annTable4.all (zentryOK annTable4) = true := by decide

theorem zfact5 : annTable5.all (zentryOK annTable5) = true := by decide

theorem zfact6 : annTable6.all (zentryOK annTable6) = true := by decide

theorem zfact7 : annTable7.all (zentryOK annTable7) = true := by decide

theorem zfact8 : annTable8.all (zentryOK annTable8) = true := by decide

theorem zfact9 : annTable9.all (zentryOK annTable9) = true := by decide

theorem zfact10 : annTable10.all (zentryOK annTable10) = true := by decide

theorem zfact11 : annTable11.all (zentryOK annTable11) = true := by decide

theorem zfact12 : annTable12.all (zentryOK annTable12) = true := by decide

theorem ann_and_zfact_blocks {c : Nat} {tbl : List (List Nat × String)}
    (h : tableLookupCard c = some tbl) :
    (tbl.map annFun).all (zentryOK (tbl.map annFun)) = true := by
  rcases tableLookupCard_mem h with hh|hh|hh|hh|hh|hh|hh|hh|hh|hh|hh|hh <;> subst hh
  · rw [ann_table1]; exact zfact1
  · rw [ann_table2]; exact zfact2
  · rw [ann_table3]; exact zfact3
  · rw [ann_table4]; exact zfact4
  · rw [ann_table5]; exact zfact5
  · rw [ann_table6]; exact zfact6
  · rw [ann_table7]; exact zfact7
  · rw [ann_table8]; exact zfact8
  · rw [ann_table9]; exact zfact9
  · rw [ann_table10]; exact zfact10
  · rw [ann_table11]; exact zfact11
  · rw [ann_table12]; exact zfact12

theorem IV_ofKey_prime (xs : List Int)
    (hne : (PitchClassSet.ofInts xs).pitch_classes ≠ []) :
    (ofKey (PitchClassSet.ofInts xs).prime_form).interval_vector
      = (PitchClassSet.ofInts xs).interval_vector := by
  have hwf := wf_ofInts xs
  have hwfp : wfList (PitchClassSet.ofInts xs).prime_form := prime_form_wf _ hwf
  have hok : ofKey (PitchClassSet.ofInts xs).prime_form
      = PitchClassSet.mk (PitchClassSet.ofInts xs).prime_form := by
    unfold ofKey PitchClassSet.ofInts
    congr 1
    exact normalizePCs_of_wf hwfp
  rw [hok]
  rcases prime_form_cases _ hwf hne with hcp | hcp
  · rw [hcp, eta_pcs]
  · rw [hcp, eta_pcs]
    exact interval_vector_inversion _ hwf 0

/-- C6 (counterexample): `get_z_partner(PitchClassSet([0, 2, 6, 8]))` returns
`"4-29"`, whose resolved set `[0, 4, 6, 10]` is the transposition of the input
by 4 — a T/I-equivalent set, not a true Z-partner. -/
theorem C6_counterexample :
    get_z_partner (PitchClassSet.ofInts [0, 2, 6, 8]) = some "4-29" ∧
    get_set_from_forte_number "4-29" = some (PitchClassSet.ofInts [0, 4, 6, 10]) ∧
    (PitchClassSet.ofInts [0, 2, 6, 8]).transposition 4
      = PitchClassSet.ofInts [0, 4, 6, 10] := by
  decide

/-- C6 (amended): whenever `get_z_partner` returns a label `L`, the set has its
own Forte number `fn` with `L ≠ fn`, `L` resolves to a set, and the resolved
set has the same interval vector as the input; T/I-inequivalence is NOT
guaranteed. -/
theorem C6_z_partner_amended (xs : List Int) (L : String)
    (hz : get_z_partner (PitchClassSet.ofInts xs) = some L) :
    ∃ fn, get_forte_number (PitchClassSet.ofInts xs) = some fn ∧ L ≠ fn ∧
      ∃ q, get_set_from_forte_number L = some q ∧
        q.interval_vector = (PitchClassSet.ofInts xs).interval_vector := by
  unfold get_z_partner at hz
  cases hfn : get_forte_number (PitchClassSet.ofInts xs) with
  | none =>
    rw [hfn] at hz
    simp at hz
  | some fn =>
    rw [hfn] at hz
    simp only [] at hz
    cases htbl : tableLookupCard (PitchClassSet.ofInts xs).cardinality with
    | none =>
      rw [htbl] at hz
      simp at hz
    | some tbl =>
      rw [htbl] at hz
      simp only [] at hz
      cases hfind : tbl.find? (fun e =>
          e.2 != fn && ((ofKey e.1).interval_vector
            == (PitchClassSet.ofInts xs).interval_vector)) with
      | none =>
        rw [hfind] at hz
        simp at hz
      | some en =>
        rw [hfind] at hz
        simp only [Option.map_some', Option.some.injEq] at hz
        have hpred := List.find?_some hfind
        rw [Bool.and_eq_true, bne_iff_ne, beq_iff_eq] at hpred
        obtain ⟨hlabne, hiv⟩ := hpred
        have hfn2 := hfn
        unfold get_forte_number at hfn2
        rw [htbl] at hfn2
        simp only [] at hfn2
        cases hf0 : tbl.find?
            (fun e => e.1 == (PitchClassSet.ofInts xs).prime_form) with
        | none =>
          rw [hf0] at hfn2
          simp at hfn2
        | some en0 =>
          rw [hf0] at hfn2
          simp only [Option.map_some', Option.some.injEq] at hfn2
          have hkey0 := List.find?_some hf0
          rw [beq_iff_eq] at hkey0
          have hmem0 := List.mem_of_find?_eq_some hf0
          have hne : (PitchClassSet.ofInts xs).pitch_classes ≠ [] := by
            intro hc
            have hcard : (PitchClassSet.ofInts xs).cardinality = 0 := by
              unfold PitchClassSet.cardinality
              rw [hc]
              rfl
            rw [hcard] at htbl
            have hnone : tableLookupCard 0 = none := by decide
            rw [hnone] at htbl
            exact Option.noConfusion htbl
          have hIVk := IV_ofKey_prime xs hne
          have hzen : zentryOK (tbl.map annFun) (annFun en0) = true :=
            List.all_eq_true.1 (ann_and_zfact_blocks htbl) (annFun en0)
              (List.mem_map.2 ⟨en0, hmem0, rfl⟩)
          unfold zentryOK at hzen
          have hcomp1 : (annFun en0).2.1 = fn := hfn2
          have hcomp2 : (annFun en0).2.2
              = (PitchClassSet.ofInts xs).interval_vector := by
            show (ofKey en0.1).interval_vector = _
            rw [hkey0, hIVk]
          rw [hcomp1, hcomp2] at hzen
          have htrans : (tbl.map annFun).find?
              (fun t => t.2.1 != fn &&
                (t.2.2 == (PitchClassSet.ofInts xs).interval_vector))
              = some (annFun en) := by
            rw [List.find?_map]
            have hcompose : ((fun t : List Nat × String × List Nat =>
                t.2.1 != fn &&
                  (t.2.2 == (PitchClassSet.ofInts xs).interval_vector)) ∘ annFun)
                = (fun e : List Nat × String =>
                  e.2 != fn && ((ofKey e.1).interval_vector
                    == (PitchClassSet.ofInts xs).interval_vector)) := rfl
            rw [hcompose, hfind]
            rfl
          rw [htrans, Option.map_some', Option.getD_some] at hzen
          have hen21 : (annFun en).2.1 = L := hz
          rw [hen21] at hzen
          cases hq : get_set_from_forte_number L with
          | none =>
            rw [hq] at hzen
            simp at hzen
          | some q =>
            rw [hq, Option.map_some', Option.getD_some, beq_iff_eq] at hzen
            refine ⟨fn, rfl, ?_, q, rfl, hzen⟩
            rw [← hz]
            exact hlabne

/-- C6 witness: the amended theorem applied to `PitchClassSet([0, 2, 6, 8])`
and the label `"4-29"` that `get_z_partner` returns for it. -/
theorem C6_z_partner_amended_witness :
    ∃ fn, get_forte_number (PitchClassSet.ofInts [0, 2, 6, 8]) = some fn ∧
      "4-29" ≠ fn ∧
      ∃ q, get_set_from_forte_number "4-29" = some q ∧
        q.interval_vector = (PitchClassSet.ofInts [0, 2, 6, 8]).interval_vector :=
  C6_z_partner_amended [0, 2, 6, 8] "4-29" (by decide)
